import Mathlib

/-!
Verification development for the ember-core-server synchronization and
authentication engine.  The JavaScript source is shallowly embedded:

* A JSON scalar is a JVal; a document (JS object arriving as JSON) is a
  total function from field names to Option JVal, where none models a
  field that is absent (JS undefined) and JVal.null models an explicit
  JSON null.  This matches JS property reads, where a missing property
  and an undefined property are indistinguishable.
* A Firestore collection is an association list from document ids to
  documents, in store order (queries return documents in list order,
  modelling the deterministic order Firestore assigns).
* Timestamps are modelled as integer instants (JVal.n): the source
  stores ISO-8601 strings or Firestore timestamps and only ever compares
  them after conversion with new Date(..) , so the embedding works with
  the converted instants directly.  An invalid or absent date, whose JS
  comparisons are all false, is modelled as none.
* Express handlers become pure functions from the request fields and the
  current store to a response (HTTP status plus JSON body) and the new
  store.  A thrown exception inside the try block of a handler is
  modelled as its catch-branch 500 response.
-/

namespace EmberCore

/-- A JSON scalar value as it appears in a synced document. -/
inductive JVal where
  | s (v : String)
  | n (v : Int)
  | b (v : Bool)
  | null
deriving DecidableEq, Repr

/-- JS truthiness of a value: empty string, 0, false and null are falsy. -/
def JVal.truthy : JVal → Bool
  | .s v => !(v = "")
  | .n v => !(v = 0)
  | .b v => v
  | .null => false

/-- A document: JS object from JSON, read as field name to optional value. -/
def Obj : Type := String → Option JVal

/-- Truthiness of a property read (undefined is falsy). -/
def truthyO : Option JVal → Bool
  | some v => v.truthy
  | none => false

/-- Build a document from an association list of fields. -/
def objOf (l : List (String × JVal)) : Obj := fun k => l.lookup k

/-- The empty object, as produced by a JS spread of undefined. -/
def emptyObj : Obj := fun _ => none

/-- Models the JS pattern (c[k] !== undefined ? c[k] : s[k]). -/
def pick (c s : Obj) (k : String) : Option JVal :=
  if (c k).isSome then c k else s k

/-- Models (v || d): the value when truthy, otherwise the default. -/
def jsOr (v : Option JVal) (d : JVal) : JVal :=
  match v with
  | some x => if x.truthy then x else d
  | none => d

/-- Models (v || null), the common defaulting pattern of the doc writers. -/
def jsOrNull (v : Option JVal) : JVal := jsOr v JVal.null

/-- A document id taken from a field: Firestore doc(..) wants a string. -/
def getKey : Option JVal → Option String
  | some (.s v) => some v
  | _ => none

/-- Projection of a value to a string, used by the string matchers. -/
def strOf : Option JVal → Option String
  | some (.s v) => some v
  | _ => none

/-- A Firestore collection: association list of id and document. -/
def Store : Type := List (String × Obj)

/-- Read a document by id (Firestore get). -/
def findDoc (st : Store) (k : String) : Option Obj :=
  (st.find? (fun p => p.fst = k)).map Prod.snd

/-- Write a whole document (Firestore set): replace in place or append. -/
def setDoc : Store → String → Obj → Store
  | [], k, o => [(k, o)]
  | (k0, o0) :: rest, k, o =>
      if k0 = k then (k, o) :: rest else (k0, o0) :: setDoc rest k o

/-- Delete a document by id (Firestore delete). -/
def deleteDoc (st : Store) (k : String) : Store :=
  st.filter (fun p => p.fst ≠ k)

/-- Overlay a patch of named fields on a document (Firestore update). -/
def patchObj (o : Obj) (fields : List (String × JVal)) : Obj :=
  fun k => match fields.lookup k with
    | some v => some v
    | none => o k

/-- Firestore update: merge named fields into an existing document; none
when the document does not exist (the source call then throws). -/
def updateAt (st : Store) (key : String) (fields : List (String × JVal)) :
    Option Store :=
  match findDoc st key with
  | none => none
  | some _ => some (st.map (fun p =>
      if p.fst = key then (p.fst, patchObj p.snd fields) else p))

/-- Single-field equality query (Firestore where field == v). -/
def whereEq (st : Store) (field : String) (v : JVal) : Store :=
  st.filter (fun p => p.snd field = some v)

/-- Two-field equality query (chained Firestore where clauses). -/
def whereEq2 (st : Store) (f1 : String) (v1 : JVal) (f2 : String) (v2 : JVal) :
    Store :=
  st.filter (fun p => p.snd f1 = some v1 ∧ p.snd f2 = some v2)

/-- Conversion of a stored value to an instant, modelling new Date(x):
integer instants convert to themselves, null to epoch 0, booleans by JS
number coercion; anything else is an invalid date (none), whose JS
comparisons are all false. -/
def parseInstant : Option JVal → Option Int
  | some (.n i) => some i
  | some .null => some 0
  | some (.b bv) => some (if bv then 1 else 0)
  | _ => none

/-- The updated_at instant used by the merge reducers, which guard with
truthiness first: (d.updated_at ? new Date(d.updated_at) : null). -/
def mTime (d : Obj) : Option Int :=
  if truthyO (d "updated_at") then parseInstant (d "updated_at") else none

/-- Models (cU && sU && cU > sU): false whenever either side is missing
or invalid, mirroring JS NaN comparison semantics. -/
def newerThan : Option Int → Option Int → Bool
  | some a, some b => a > b
  | _, _ => false

/-- The staleness test of the sync handlers:
new Date(client.updated_at) < new Date(server.updated_at). -/
def staleLt (cv sv : Option JVal) : Bool :=
  match parseInstant cv, parseInstant sv with
  | some a, some b => a < b
  | _, _ => false

/-- Does the list start with the given pattern?  Used to model the JS
String.prototype.includes test. -/
def listStartsWith : List Char → List Char → Bool
  | _, [] => true
  | [], _ :: _ => false
  | a :: as, b :: bs => a = b && listStartsWith as bs

/-- Does the list contain the pattern as a contiguous subsequence? -/
def listContainsSeq : List Char → List Char → Bool
  | [], pat => pat.isEmpty
  | l@(_ :: rest), pat => listStartsWith l pat || listContainsSeq rest pat

/-- Models hay.includes(needle) of JS strings. -/
def jsIncludes (hay needle : String) : Bool :=
  listContainsSeq hay.toList needle.toList

/-- Models String.prototype.toLowerCase, written over the character list
so that it evaluates inside the kernel. -/
def jsToLower (s : String) : String := String.mk (s.toList.map Char.toLower)

/-- Models String.prototype.trim: whitespace stripped from both ends. -/
def jsTrim (s : String) : String :=
  String.mk (((s.toList.dropWhile Char.isWhitespace).reverse.dropWhile
    Char.isWhitespace).reverse)

/-- The separator that the text-append merge inserts between the server
text and the client text. -/
def syncMergeSep : String := "\n\n[SYNC MERGE] Client update:\n"

/-- mergeTextFields of registrationSyncController.js, on the string level:
absent or null on one side returns the other; identical texts return the
server copy; containment returns the containing side; otherwise the server
text, the separator and the client text are concatenated. -/
def mergeTextFields (clientText serverText : Option String) : Option String :=
  match clientText with
  | none => serverText
  | some c =>
    match serverText with
    | none => some c
    | some s =>
      if c = s then some s
      else if jsIncludes c s then some c
      else if jsIncludes s c then some s
      else some (s ++ syncMergeSep ++ c)

/-- mergeTextFields lifted to document values.  JS null behaves exactly
like undefined here (the source checks both); a truthy non-string value
would make .includes throw inside the handler try block, a case that is
never reached by the theorems below and is modelled as keeping the server
value. -/
def mergeTextFieldsJ (cv sv : Option JVal) : Option JVal :=
  match cv with
  | none => sv
  | some .null => sv
  | some (.s c) =>
    match sv with
    | none => some (.s c)
    | some .null => some (.s c)
    | some (.s s) => (mergeTextFields (some c) (some s)).map JVal.s
    | some _ => sv
  | some _ => sv

/-- Rank table of taskSyncController.js (calculateMostAdvancedStatus). -/
def taskStatusRank (s : String) : Option Nat :=
  if s = "todo" then some 1
  else if s = "in_progress" then some 2
  else if s = "review" then some 3
  else if s = "completed" then some 4
  else if s = "cancelled" then some 5
  else none

/-- Rank table of taskAssignmentSyncController.js. -/
def assignmentStatusRank (s : String) : Option Nat :=
  if s = "assigned" then some 1
  else if s = "accepted" then some 2
  else if s = "in_progress" then some 3
  else if s = "completed" then some 4
  else if s = "rejected" then some 5
  else none

/-- Rank table of registrationSyncController.js. -/
def registrationStatusRank (s : String) : Option Nat :=
  if s = "pending" then some 1
  else if s = "in_progress" then some 2
  else if s = "completed" then some 3
  else if s = "transferred" then some 4
  else if s = "discharged" then some 5
  else none

/-- Rank of a status value: a lookup statusRank[v] in JS yields undefined
on a missing key and on a non-string value. -/
def rankOf (rank : String → Option Nat) : Option JVal → Option Nat
  | some (.s v) => rank v
  | _ => none

/-- Models (x > y) on possibly-undefined ranks: any comparison against
undefined (NaN) is false. -/
def jsGtRank : Option Nat → Option Nat → Bool
  | some a, some b => a > b
  | _, _ => false

/-- Shared shape of the three calculateMostAdvanced..Status helpers: a
falsy side defers to the other, otherwise the side with the strictly
higher rank wins and ties keep the server value. -/
def mostAdvanced (rank : String → Option Nat) (cS sS : Option JVal) :
    Option JVal :=
  if !truthyO cS then sS
  else if !truthyO sS then cS
  else if jsGtRank (rankOf rank cS) (rankOf rank sS) then cS else sS

/-- calculateMostAdvancedStatus of taskSyncController.js. -/
def calculateMostAdvancedStatus (cS sS : Option JVal) : Option JVal :=
  mostAdvanced taskStatusRank cS sS

/-- calculateMostAdvancedAssignmentStatus of
taskAssignmentSyncController.js. -/
def calculateMostAdvancedAssignmentStatus (cS sS : Option JVal) :
    Option JVal :=
  mostAdvanced assignmentStatusRank cS sS

/-- calculateMostAdvancedRegistrationStatus of
registrationSyncController.js. -/
def calculateMostAdvancedRegistrationStatus (cS sS : Option JVal) :
    Option JVal :=
  mostAdvanced registrationStatusRank cS sS

/-- One key of the allKeys.forEach loop of the user, registration and
location merges: a critical key is adopted from the client only when the
client is newer and the values differ; any other key follows the same
test with the undefined-guard written first, as in the source. -/
def loopMergeKey (c s : Obj) (newer : Bool) (crit : List String)
    (k : String) : Option JVal :=
  if crit.contains k then
    if newer ∧ (c k).isSome ∧ c k ≠ s k then c k else s k
  else
    if (c k).isSome ∧ (if newer then c k ≠ s k else False) then c k else s k

/-- Strategy comparison: the JS handlers compare resolution_strategy with
string literals by strict equality, so only a string value can match. -/
def sEq (v : Option JVal) (x : String) : Bool := v = some (JVal.s x)

/-- Membership of the strategy value in a string array, modelling
array.includes(resolution_strategy). -/
def stratIn (v : Option JVal) (l : List String) : Bool :=
  match v with
  | some (.s x) => l.contains x
  | _ => false

/-- Math.min on the two quantity operands of the supply merge, after the
source ternary has replaced an undefined side by Number.MAX_SAFE_INTEGER.
Null and booleans follow JS numeric coercion; a non-numeric string would
give NaN in the source and is modelled as the MAX default, a case never
reached by the theorems (quantities are numbers). -/
def numOr : Option JVal → Int
  | some (.n i) => i
  | some .null => 0
  | some (.b bv) => if bv then 1 else 0
  | _ => 9007199254740991

/-- Minimum of the two coerced quantities. -/
def jsMinQuantity (cv sv : Option JVal) : JVal :=
  JVal.n (min (numOr cv) (numOr sv))

/-- Client-newer branch of the supply merge in supplySyncController.js. -/
def supplyMergeNewer (c s : Obj) : Obj := fun k =>
  if k = "item_name" then pick c s k
  else if k = "category" then pick c s k
  else if k = "quantity" then pick c s k
  else if k = "unit" then pick c s k
  else if k = "location_id" then pick c s k
  else if k = "expiry_date" then pick c s k
  else if k = "notes" then pick c s k
  else if k = "updated_at" then c "updated_at"
  else s k

/-- Server-newer-or-equal branch of the supply merge: notes only when
explicitly changed, quantity as the minimum of both sides. -/
def supplyMergeStale (c s : Obj) : Obj := fun k =>
  if k = "notes" then
    if (c k).isSome ∧ c k ≠ s k then c k else s k
  else if k = "quantity" then some (jsMinQuantity (c "quantity") (s "quantity"))
  else if k = "updated_at" then s "updated_at"
  else s k

/-- resolveSupplyConflict of supplySyncController.js: client_wins and
server_wins return a side verbatim; every other strategy value falls into
the merge default of the switch. -/
def resolveSupplyConflict (c s : Obj) (strat : Option JVal) : Obj :=
  if sEq strat "client_wins" then c
  else if sEq strat "server_wins" then s
  else if newerThan (mTime c) (mTime s) then supplyMergeNewer c s
  else supplyMergeStale c s

/-- Client-newer branch of the task merge in taskSyncController.js. -/
def taskMergeNewer (c s : Obj) : Obj := fun k =>
  if k = "title" then pick c s k
  else if k = "description" then pick c s k
  else if k = "priority" then pick c s k
  else if k = "due_date" then pick c s k
  else if k = "status" then pick c s k
  else if k = "location_id" then pick c s k
  else if k = "updated_at" then c "updated_at"
  else s k

/-- Server-newer-or-equal branch of the task merge: title and description
only when explicitly changed, status through the lattice join. -/
def taskMergeStale (c s : Obj) : Obj := fun k =>
  if k = "title" then
    if (c k).isSome ∧ c k ≠ s k then c k else s k
  else if k = "description" then
    if (c k).isSome ∧ c k ≠ s k then c k else s k
  else if k = "status" then calculateMostAdvancedStatus (c "status") (s "status")
  else if k = "updated_at" then s "updated_at"
  else s k

/-- resolveTaskConflict of taskSyncController.js. -/
def resolveTaskConflict (c s : Obj) (strat : Option JVal) : Obj :=
  if sEq strat "client_wins" then c
  else if sEq strat "server_wins" then s
  else if newerThan (mTime c) (mTime s) then taskMergeNewer c s
  else taskMergeStale c s

/-- Client-newer branch of the assignment merge in
taskAssignmentSyncController.js. -/
def assignmentMergeNewer (c s : Obj) : Obj := fun k =>
  if k = "status" then pick c s k
  else if k = "notes" then pick c s k
  else if k = "completed_at" then pick c s k
  else if k = "updated_at" then c "updated_at"
  else s k

/-- Server-newer-or-equal branch of the assignment merge: notes only when
explicitly changed, status through the lattice join. -/
def assignmentMergeStale (c s : Obj) : Obj := fun k =>
  if k = "notes" then
    if (c k).isSome ∧ c k ≠ s k then c k else s k
  else if k = "status" then
    calculateMostAdvancedAssignmentStatus (c "status") (s "status")
  else if k = "updated_at" then s "updated_at"
  else s k

/-- resolveTaskAssignmentConflict of taskAssignmentSyncController.js. -/
def resolveTaskAssignmentConflict (c s : Obj) (strat : Option JVal) : Obj :=
  if sEq strat "client_wins" then c
  else if sEq strat "server_wins" then s
  else if newerThan (mTime c) (mTime s) then assignmentMergeNewer c s
  else assignmentMergeStale c s

/-- The update_data case of resolveUserConflict: the client object with
the identity fields email and phone_number taken from the server and
updated_at stamped with the current time. -/
def userUpdateData (c s : Obj) (now : Int) : Obj := fun k =>
  if k = "email" then s "email"
  else if k = "phone_number" then s "phone_number"
  else if k = "updated_at" then some (.n now)
  else c k

/-- The merge case of resolveUserConflict: the allKeys loop with critical
fields email and role, then the updated_at override. -/
def userMerge (c s : Obj) : Obj :=
  let newer := newerThan (mTime c) (mTime s)
  fun k =>
    if k = "updated_at" then if newer then c "updated_at" else s "updated_at"
    else loopMergeKey c s newer ["email", "role"] k

/-- resolveUserConflict of userSyncController.js. -/
def resolveUserConflict (c s : Obj) (strat : Option JVal) (now : Int) : Obj :=
  if sEq strat "client_wins" then c
  else if sEq strat "server_wins" then s
  else if sEq strat "update_data" then userUpdateData c s now
  else userMerge c s

/-- The update_data case of resolveRegistrationConflict: the client object
with person_name, age and gender taken from the server and updated_at
stamped with the current time. -/
def registrationUpdateData (c s : Obj) (now : Int) : Obj := fun k =>
  if k = "person_name" then s "person_name"
  else if k = "age" then s "age"
  else if k = "gender" then s "gender"
  else if k = "updated_at" then some (.n now)
  else c k

/-- The merge case of resolveRegistrationConflict: the allKeys loop with
critical fields person_name, age, gender and status, then the text-merge
overrides on medical_history and notes, the status join and the
updated_at override.  The source guards the overrides with a both-sides
presence test whose skipped case coincides with applying the override to
two absent values, so the overrides are written unconditionally here. -/
def registrationMerge (c s : Obj) : Obj :=
  let newer := newerThan (mTime c) (mTime s)
  fun k =>
    if k = "medical_history" then mergeTextFieldsJ (c k) (s k)
    else if k = "notes" then mergeTextFieldsJ (c k) (s k)
    else if k = "status" then
      calculateMostAdvancedRegistrationStatus (c "status") (s "status")
    else if k = "updated_at" then
      if newer then c "updated_at" else s "updated_at"
    else loopMergeKey c s newer ["person_name", "age", "gender", "status"] k

/-- resolveRegistrationConflict of registrationSyncController.js. -/
def resolveRegistrationConflict (c s : Obj) (strat : Option JVal)
    (now : Int) : Obj :=
  if sEq strat "client_wins" then c
  else if sEq strat "server_wins" then s
  else if sEq strat "update_data" then registrationUpdateData c s now
  else registrationMerge c s

/-- The update_data case of resolveLocationConflict: the client object
with name taken from the server and updated_at stamped now. -/
def locationUpdateData (c s : Obj) (now : Int) : Obj := fun k =>
  if k = "name" then s "name"
  else if k = "updated_at" then some (.n now)
  else c k

/-- The merge case of resolveLocationConflict: the allKeys loop with
critical fields name and type, then the updated_at override. -/
def locationMerge (c s : Obj) : Obj :=
  let newer := newerThan (mTime c) (mTime s)
  fun k =>
    if k = "updated_at" then if newer then c "updated_at" else s "updated_at"
    else loopMergeKey c s newer ["name", "type"] k

/-- resolveLocationConflict of locationSyncController.js. -/
def resolveLocationConflict (c s : Obj) (strat : Option JVal)
    (now : Int) : Obj :=
  if sEq strat "client_wins" then c
  else if sEq strat "server_wins" then s
  else if sEq strat "update_data" then locationUpdateData c s now
  else locationMerge c s

/-- The email regex of userSyncController.js and authController.js,
anchored as one-or-more non-space-non-at, an at sign, one-or-more
non-space-non-at, a dot, one-or-more non-space-non-at.  Equivalently: no
whitespace, exactly one at sign with a nonempty local part, and a dot at
an interior position of the domain part.  The JS regex class for
whitespace is modelled by Char.isWhitespace. -/
def isValidEmailStr (s : String) : Bool :=
  let cs := s.toList
  let lpart := cs.takeWhile (fun c => c ≠ '@')
  let dom := (cs.dropWhile (fun c => c ≠ '@')).drop 1
  cs.all (fun c => !c.isWhitespace) &&
  (cs.filter (fun c => c = '@')).length = 1 &&
  !lpart.isEmpty &&
  ((dom.drop 1).dropLast).contains '.'

/-- Email validation on a document value.  The JS regex test coerces its
argument to a string first; the string form of a number, boolean, null or
undefined never contains an at sign, so every non-string value fails. -/
def isValidEmailV : Option JVal → Bool
  | some (.s e) => isValidEmailStr e
  | _ => false

/-- Ten to fifteen digits, the mandatory tail of the phone regex. -/
def phoneDigitsOk (l : List Char) : Bool :=
  l.all Char.isDigit && decide (10 ≤ l.length) && decide (l.length ≤ 15)

/-- An optional country-code prefix of a plus sign, one to three digits
and an optional dash or space, before the digit tail. -/
def phoneWithCc (rest : List Char) (n : Nat) : Bool :=
  decide ((rest.take n).length = n) && (rest.take n).all Char.isDigit &&
  (phoneDigitsOk (rest.drop n) ||
    match rest.drop n with
    | c :: t2 => (c = '-' || c = ' ') && phoneDigitsOk t2
    | [] => false)

/-- The phone regex of userSyncController.js applied after stripping all
whitespace, as the source does with replace. -/
def isValidPhoneNumberStr (s : String) : Bool :=
  let l := s.toList.filter (fun c => !c.isWhitespace)
  phoneDigitsOk l ||
  match l with
  | '+' :: rest => phoneWithCc rest 1 || phoneWithCc rest 2 || phoneWithCc rest 3
  | _ => false

/-- Phone validation on a document value.  A truthy non-string phone
makes the source throw on .replace before any response; that case is
outside the claims and is modelled as failing validation. -/
def isValidPhoneNumberV : Option JVal → Bool
  | some (.s p) => isValidPhoneNumberStr p
  | _ => false

/-- Lowercase-then-trim of the JS name matchers. -/
def lowTrim (x : String) : String := jsTrim (jsToLower x)

/-- Name comparison of isSameUserProfile: exact match after lowercasing
and trimming, or containment either way. -/
def nameMatchB (a b : String) : Bool :=
  let x := lowTrim a
  let y := lowTrim b
  x = y || jsIncludes x y || jsIncludes y x

/-- Phone comparison of isSameUserProfile: digits only, last ten. -/
def phoneMatchB (a b : String) : Bool :=
  let da := a.toList.filter Char.isDigit
  let db := b.toList.filter Char.isDigit
  da.drop (da.length - 10) = db.drop (db.length - 10)

/-- One scored field of isSameUserProfile: whether it is counted (both
sides truthy) and whether it matches.  A truthy non-string value in a
string-compared field would make the source throw; that unreached case is
modelled as a non-match. -/
def userFieldScore (c s : Obj) (f : String) : Nat × Nat :=
  if truthyO (c f) ∧ truthyO (s f) then
    let m : Bool :=
      if f = "email" then
        match strOf (c f), strOf (s f) with
        | some a, some b => jsToLower a = jsToLower b
        | _, _ => false
      else if f = "name" then
        match strOf (c f), strOf (s f) with
        | some a, some b => nameMatchB a b
        | _, _ => false
      else if f = "phone_number" then
        match strOf (c f), strOf (s f) with
        | some a, some b => phoneMatchB a b
        | _, _ => false
      else decide (c f = s f)
    (1, if m then 1 else 0)
  else (0, 0)

/-- Match ratio at least 0.8, computed on exact rationals.  The JS
floating-point quotient of two small naturals compares to the literal 0.8
exactly as the rational comparison 5m greater-or-equal 4t does. -/
def ratioGE80 (m t : Nat) : Bool :=
  decide (0 < t) && decide (4 * t ≤ 5 * m)

/-- isSameUserProfile of userSyncController.js: scores name, email and
phone_number, confirms with role, then declares a duplicate when the
email matches and at least two fields match, or at least 80 percent of
the counted fields match. -/
def isSameUserProfile (c s : Obj) : Bool :=
  let fields := ["name", "email", "phone_number", "role"]
  let scores := fields.map (userFieldScore c s)
  let total := (scores.map Prod.fst).sum
  let matchCnt := (scores.map Prod.snd).sum
  let emailMatches : Bool :=
    truthyO (c "email") && truthyO (s "email") &&
    (match strOf (c "email"), strOf (s "email") with
     | some a, some b => jsToLower a = jsToLower b
     | _, _ => false)
  (emailMatches && decide (2 ≤ matchCnt)) || ratioGE80 matchCnt total

/-- checkUniqueFieldExists of userSyncController.js: a falsy value is
never checked; otherwise the first document matching the field equality
query whose id differs from the current one (when given) is returned as
id and data. -/
def checkUniqueFieldExists (field : String) (value : Option JVal)
    (currentUserId : Option String) (st : Store) : Option (String × Obj) :=
  if truthyO value then
    match value with
    | some v =>
      (whereEq st field v).find? (fun p =>
        match currentUserId with
        | none => true
        | some cid => decide (p.fst ≠ cid))
    | none => none
  else none

/-- createUserDoc of userModel.js.  Name, email and role are written
verbatim; a missing one is an undefined Firestore value and the set call
throws, modelled as none. -/
def createUserDoc (uid : String) (d : Obj) (now : Int) (st : Store) :
    Option Store :=
  match d "name", d "email", d "role" with
  | some nm, some em, some rl =>
    some (setDoc st uid (objOf
      [("user_id", .s uid), ("name", nm), ("email", em),
       ("phone_number", jsOrNull (d "phone_number")),
       ("image_url", jsOrNull (d "image_url")), ("role", rl),
       ("reset_token", .null), ("token_expire", .null),
       ("created_at", jsOr (d "created_at") (.n now)),
       ("updated_at", jsOr (d "updated_at") (.n now))]))
  | _, _, _ => none

/-- updateUserDoc of userModel.js: merges exactly the six fields name,
email, role, phone_number, image_url and updated_at into the stored
document; phone_number and image_url default to null, updated_at to the
server timestamp.  The call throws (none) when the document is absent or
name, email or role is undefined. -/
def updateUserDoc (uid : String) (d : Obj) (now : Int) (st : Store) :
    Option Store :=
  match d "name", d "email", d "role" with
  | some nm, some em, some rl =>
    updateAt st uid
      [("name", nm), ("email", em), ("role", rl),
       ("phone_number", jsOrNull (d "phone_number")),
       ("image_url", jsOrNull (d "image_url")),
       ("updated_at", jsOr (d "updated_at") (.n now))]
  | _, _, _ => none

/-- createSupplyDoc of supplyModel.js (no created_at or updated_at stamp
in this variant); an undefined required field makes the set call throw. -/
def createSupplyDoc (id : String) (d : Obj) (st : Store) : Option Store :=
  match d "user_id", d "item_name", d "quantity", d "expiry_date",
      d "location_id", d "timestamp" with
  | some uid, some itn, some qty, some exd, some loc, some ts =>
    some (setDoc st id (objOf
      [("supply_id", .s id), ("user_id", uid), ("item_name", itn),
       ("quantity", qty), ("expiry_date", exd), ("location_id", loc),
       ("timestamp", ts), ("synced", .b true),
       ("status", jsOr (d "status") (.s "active"))]))
  | _, _, _, _, _, _ => none

/-- updateSupplyDoc of supplyModel.js. -/
def updateSupplyDoc (id : String) (d : Obj) (now : Int) (st : Store) :
    Option Store :=
  match d "item_name", d "quantity", d "expiry_date", d "location_id" with
  | some itn, some qty, some exd, some loc =>
    updateAt st id
      [("item_name", itn), ("quantity", qty), ("expiry_date", exd),
       ("location_id", loc), ("timestamp", jsOr (d "timestamp") (.n now)),
       ("status", jsOr (d "status") (.s "active")), ("synced", .b true)]
  | _, _, _, _ => none

/-- createTaskDoc of taskModel.js. -/
def createTaskDoc (id : String) (d : Obj) (now : Int) (st : Store) :
    Option Store :=
  match d "title", d "created_by", d "due_date" with
  | some ti, some cb, some dd =>
    some (setDoc st id (objOf
      [("task_id", .s id), ("title", ti),
       ("description", jsOr (d "description") (.s "")),
       ("status", jsOr (d "status") (.s "pending")),
       ("priority", jsOr (d "priority") (.s "normal")),
       ("created_by", cb), ("due_date", dd),
       ("created_at", jsOr (d "created_at") (.n now)),
       ("updated_at", jsOr (d "updated_at") (.n now))]))
  | _, _, _ => none

/-- updateTaskDoc of taskModel.js. -/
def updateTaskDoc (id : String) (d : Obj) (now : Int) (st : Store) :
    Option Store :=
  match d "title", d "due_date" with
  | some ti, some dd =>
    updateAt st id
      [("title", ti), ("description", jsOr (d "description") (.s "")),
       ("status", jsOr (d "status") (.s "pending")),
       ("priority", jsOr (d "priority") (.s "normal")),
       ("due_date", dd), ("updated_at", jsOr (d "updated_at") (.n now))]
  | _, _ => none

/-- createTaskAssignmentDoc of taskAssignmentModel.js. -/
def createTaskAssignmentDoc (id : String) (d : Obj) (st : Store) :
    Option Store :=
  match d "task_id", d "user_id", d "assigned_at" with
  | some tk, some us, some aa =>
    some (setDoc st id (objOf
      [("assignment_id", .s id), ("task_id", tk), ("user_id", us),
       ("assigned_at", aa), ("status", jsOr (d "status") (.s "assigned")),
       ("feedback", jsOr (d "feedback") (.s ""))]))
  | _, _, _ => none

/-- updateTaskAssignmentDoc of taskAssignmentModel.js. -/
def updateTaskAssignmentDoc (id : String) (d : Obj) (st : Store) :
    Option Store :=
  match d "task_id", d "user_id", d "assigned_at" with
  | some tk, some us, some aa =>
    updateAt st id
      [("task_id", tk), ("user_id", us), ("assigned_at", aa),
       ("status", jsOr (d "status") (.s "assigned")),
       ("feedback", jsOr (d "feedback") (.s ""))]
  | _, _, _ => none

/-- A JSON value appearing in a response body. -/
inductive RVal where
  | str (v : String)
  | int (v : Int)
  | bool (v : Bool)
  | obj (v : Obj)
  | list (v : List String)
  | null

/-- Echo of a request value into a response body (JSON serialization
turns an undefined property into an absent one; modelled as null, which
the claims never distinguish). -/
def rvalOf : Option JVal → RVal
  | some (.s x) => .str x
  | some (.n i) => .int i
  | some (.b bv) => .bool bv
  | some .null => .null
  | none => .null

/-- JS template-string form of a request value. -/
def jsStr : Option JVal → String
  | some (.s x) => x
  | some (.n i) => toString i
  | some (.b bv) => if bv then "true" else "false"
  | some .null => "null"
  | none => "undefined"

/-- Response of a handler: HTTP status, JSON body, resulting store. -/
structure HandlerOut where
  status : Nat
  body : List (String × RVal)
  store : Store

/-- String field of a response body. -/
def lookupStr (b : List (String × RVal)) (k : String) : Option String :=
  match b.lookup k with
  | some (.str v) => some v
  | _ => none

/-- String-array field of a response body. -/
def lookupList (b : List (String × RVal)) (k : String) :
    Option (List String) :=
  match b.lookup k with
  | some (.list v) => some v
  | _ => none

/-- Document field of a response body. -/
def lookupObj (b : List (String × RVal)) (k : String) : Option Obj :=
  match b.lookup k with
  | some (.obj v) => some v
  | _ => none

/-- syncSupplyFromClient of supplySyncController.js. -/
def syncSupplyFromClient (s : Obj) (now : Int) (st : Store) : HandlerOut :=
  if !(truthyO (s "supply_id") && truthyO (s "user_id") &&
       truthyO (s "item_name") && truthyO (s "updated_at")) then
    ⟨400, [("error", .str "Missing required fields")], st⟩
  else
    match getKey (s "supply_id") with
    | none => ⟨500, [("error", .str "Supply sync failed")], st⟩
    | some pk =>
      match findDoc st pk with
      | some server =>
        if staleLt (s "updated_at") (server "updated_at") then
          ⟨409, [("error", .str "Conflict: Stale update"),
                 ("conflict_field", .str "supply_id"),
                 ("latest_data", .obj server)], st⟩
        else
          match updateSupplyDoc pk s now st with
          | some st' => ⟨200, [("message", .str "Supply synced successfully")], st'⟩
          | none => ⟨500, [("error", .str "Supply sync failed")], st⟩
      | none =>
        match createSupplyDoc pk s st with
        | some st' => ⟨200, [("message", .str "Supply synced successfully")], st'⟩
        | none => ⟨500, [("error", .str "Supply sync failed")], st⟩

/-- The primary-lookup part of syncTaskFromClient, after the title
uniqueness probe has not fired: stale check with conflict_field task_id,
then update or create through taskModel.js. -/
def syncTaskMain (t : Obj) (now : Int) (st : Store) : HandlerOut :=
  match getKey (t "task_id") with
  | none => ⟨500, [("error", .str "Task sync failed")], st⟩
  | some pk =>
    match findDoc st pk with
    | some server =>
      if staleLt (t "updated_at") (server "updated_at") then
        ⟨409, [("error", .str "Conflict: Stale update"),
               ("conflict_field", .str "task_id"),
               ("latest_data", .obj server)], st⟩
      else
        match updateTaskDoc pk t now st with
        | some st' => ⟨200, [("message", .str "Task synced successfully")], st'⟩
        | none => ⟨500, [("error", .str "Task sync failed")], st⟩
    | none =>
      match createTaskDoc pk t now st with
      | some st' => ⟨200, [("message", .str "Task synced successfully")], st'⟩
      | none => ⟨500, [("error", .str "Task sync failed")], st⟩

/-- syncTaskFromClient of taskSyncController.js: the title-and-location
uniqueness probe runs before the primary lookup; the stale conflict is
reported with conflict_field task_id and no allowed_strategies. -/
def syncTaskFromClient (t : Obj) (now : Int) (st : Store) : HandlerOut :=
  if !(truthyO (t "task_id") && truthyO (t "title") &&
       truthyO (t "created_by") && truthyO (t "updated_at")) then
    ⟨400, [("error", .str "Missing required fields")], st⟩
  else
    match
      (if truthyO (t "title") ∧ truthyO (t "location_id") then
        match t "title", t "location_id" with
        | some tv, some lv => (whereEq2 st "title" tv "location_id" lv).head?
        | _, _ => none
      else none) with
    | some (hid, hdoc) =>
      if t "task_id" ≠ some (.s hid) then
        ⟨409, [("error", .str "Conflict: Task with this title already exists at the same location"),
               ("conflict_field", .str "title"),
               ("conflict_type", .str "unique_constraint"),
               ("latest_data", .obj hdoc)], st⟩
      else syncTaskMain t now st
    | none => syncTaskMain t now st

/-- The auto-merge object of the duplicate-account path: the server data
spread under the client data, with the server id and a fresh stamp. -/
def autoMergeUser (edata u : Obj) (eid : String) (now : Int) : Obj :=
  fun k =>
    if k = "user_id" then some (.s eid)
    else if k = "updated_at" then some (.n now)
    else if (u k).isSome then u k else edata k

/-- The final update of syncUserFromClient when every check has passed. -/
def syncUserWrite (pk : String) (u : Obj) (now : Int) (st : Store) :
    HandlerOut :=
  match updateUserDoc pk u now st with
  | some st' => ⟨200, [("message", .str "User synced successfully")], st'⟩
  | none => ⟨500, [("error", .str "User sync failed")], st⟩

/-- syncUserFromClient of userSyncController.js.  The unique-field probes
are written as a guarded lookup: the source runs the probe only under its
guard condition, and a probe miss continues to the next step either way. -/
def syncUserFromClient (u : Obj) (now : Int) (st : Store) : HandlerOut :=
  if !(truthyO (u "user_id") && truthyO (u "name") && truthyO (u "email") &&
       truthyO (u "role") && truthyO (u "updated_at")) then
    ⟨400, [("error", .str "Missing required fields")], st⟩
  else if !(isValidEmailV (u "email")) then
    ⟨400, [("error", .str "Invalid email format")], st⟩
  else if truthyO (u "phone_number") && !(isValidPhoneNumberV (u "phone_number")) then
    ⟨400, [("error", .str "Invalid phone number format")], st⟩
  else
    match getKey (u "user_id") with
    | none => ⟨500, [("error", .str "User sync failed")], st⟩
    | some pk =>
      match findDoc st pk with
      | some server =>
        if staleLt (u "updated_at") (server "updated_at") then
          ⟨409, [("error", .str "Conflict: Stale update"),
                 ("conflict_field", .str "updated_at"),
                 ("latest_data", .obj server),
                 ("allowed_strategies",
                  .list ["client_wins", "server_wins", "merge", "update_data"]),
                 ("client_id", .str pk), ("server_id", .str pk)], st⟩
        else
          match
            (if u "email" ≠ server "email" then
              checkUniqueFieldExists "email" (u "email") (some pk) st
            else none) with
          | some (eid, edata) =>
            if isSameUserProfile u edata then
              ⟨409, [("error", .str "Conflict: Email belongs to another account that appears to be yours"),
                     ("conflict_field", .str "email"),
                     ("conflict_type", .str "potential_duplicate_account"),
                     ("latest_data", .obj edata),
                     ("allowed_strategies", .list ["client_wins", "server_wins", "merge"]),
                     ("client_id", .str pk), ("server_id", .str eid)], st⟩
            else
              ⟨409, [("error", .str "Conflict: Email already exists"),
                     ("conflict_field", .str "email"),
                     ("conflict_type", .str "unique_constraint"),
                     ("latest_data", .obj edata),
                     ("allowed_strategies",
                      .list ["client_wins", "server_wins", "merge", "update_data"])], st⟩
          | none =>
            match
              (if truthyO (u "phone_number") ∧ u "phone_number" ≠ server "phone_number" then
                checkUniqueFieldExists "phone_number" (u "phone_number") (some pk) st
              else none) with
            | some (pid, pdata) =>
              if isSameUserProfile u pdata then
                ⟨409, [("error", .str "Conflict: Phone number belongs to another account that appears to be yours"),
                       ("conflict_field", .str "phone_number"),
                       ("conflict_type", .str "potential_duplicate_account"),
                       ("latest_data", .obj pdata),
                       ("allowed_strategies", .list ["client_wins", "server_wins", "merge"]),
                       ("client_id", .str pk), ("server_id", .str pid)], st⟩
              else
                ⟨409, [("error", .str "Conflict: Phone number already exists"),
                       ("conflict_field", .str "phone_number"),
                       ("conflict_type", .str "unique_constraint"),
                       ("latest_data", .obj pdata),
                       ("allowed_strategies",
                        .list ["client_wins", "server_wins", "merge", "update_data"])], st⟩
            | none => syncUserWrite pk u now st
      | none =>
        match checkUniqueFieldExists "email" (u "email") none st with
        | some (eid, edata) =>
          if isSameUserProfile u edata then
            match updateUserDoc eid (autoMergeUser edata u eid now) now st with
            | some st' =>
              ⟨200, [("message", .str "User synced successfully (auto-resolved duplicate account)"),
                     ("resolved_as", .str "same_user_detected"),
                     ("server_user_id", .str eid)], st'⟩
            | none => ⟨500, [("error", .str "User sync failed")], st⟩
          else
            ⟨409, [("error", .str "Conflict: Email already exists"),
                   ("conflict_field", .str "email"),
                   ("conflict_type", .str "unique_constraint"),
                   ("latest_data", .obj edata),
                   ("allowed_strategies", .list ["client_wins"])], st⟩
        | none =>
          match checkUniqueFieldExists "phone_number" (u "phone_number") none st with
          | some (pid, pdata) =>
            if isSameUserProfile u pdata then
              match updateUserDoc pid (autoMergeUser pdata u pid now) now st with
              | some st' =>
                ⟨200, [("message", .str "User synced successfully (auto-resolved duplicate account)"),
                       ("resolved_as", .str "same_user_detected"),
                       ("server_user_id", .str pid)], st'⟩
              | none => ⟨500, [("error", .str "User sync failed")], st⟩
            else
              ⟨409, [("error", .str "Conflict: Phone number already exists"),
                     ("conflict_field", .str "phone_number"),
                     ("conflict_type", .str "unique_constraint"),
                     ("latest_data", .obj pdata),
                     ("allowed_strategies", .list ["client_wins"])], st⟩
          | none =>
            match createUserDoc pk u now st with
            | some st' => ⟨200, [("message", .str "User synced successfully")], st'⟩
            | none => ⟨500, [("error", .str "User sync failed")], st⟩

/-- resolveSupplySyncConflict of supplySyncController.js: the strategy is
checked against client_wins, server_wins and merge before anything else,
so any other name is rejected with 400 and the store untouched. -/
def resolveSupplySyncConflict (sidV strategyV : Option JVal)
    (clientData : Option Obj) (now : Int) (st : Store) : HandlerOut :=
  if !truthyO sidV then
    ⟨400, [("success", .bool false), ("message", .str "Supply ID is required"),
           ("status", .str "error")], st⟩
  else if !stratIn strategyV ["client_wins", "server_wins", "merge"] then
    ⟨400, [("success", .bool false),
           ("message", .str "Invalid resolution strategy. Must be one of: client_wins, server_wins, merge"),
           ("status", .str "error")], st⟩
  else
    match getKey sidV with
    | none => ⟨500, [("success", .bool false), ("message", .str "Server error"),
                     ("status", .str "error")], st⟩
    | some sid =>
      match findDoc st sid with
      | none =>
        ⟨404, [("success", .bool false), ("message", .str "Supply not found"),
               ("status", .str "error")], st⟩
      | some server =>
        match clientData with
        | none =>
          ⟨400, [("success", .bool false),
                 ("message", .str "Client data is required"),
                 ("status", .str "error")], st⟩
        | some c =>
          match updateSupplyDoc sid (resolveSupplyConflict c server strategyV) now st with
          | some st' =>
            ⟨200, [("success", .bool true),
                   ("message", .str ("Conflict resolved using " ++ jsStr strategyV ++ " strategy")),
                   ("status", .str "resolved"), ("supply_id", .str sid),
                   ("resolvedData", .obj (resolveSupplyConflict c server strategyV))], st'⟩
          | none =>
            ⟨500, [("success", .bool false), ("message", .str "Server error"),
                   ("status", .str "error")], st⟩

/-- The allowed strategies of the user resolve handler once the server
document exists. -/
def userAllowed : List String :=
  ["client_wins", "server_wins", "merge", "update_data"]

/-- The 200 response of resolveUserSyncConflict after a successful write
on an existing user. -/
def userResolvedOut (uid : String) (strategyV : Option JVal)
    (resolved : Obj) (st' : Store) : HandlerOut :=
  ⟨200, [("success", .bool true),
         ("message", .str ("Conflict resolved using " ++ jsStr strategyV ++ " strategy (existing user updated)")),
         ("status", .str "resolved"), ("user_id", .str uid),
         ("resolvedData", .obj resolved), ("isNewUser", .bool false),
         ("resolution_strategy", rvalOf strategyV),
         ("allowed_strategies", .list userAllowed),
         ("client_id", .str uid), ("server_id", .str uid)], st'⟩

/-- The catch-branch 500 response of resolveUserSyncConflict. -/
def userErrorOut (st : Store) : HandlerOut :=
  ⟨500, [("success", .bool false), ("message", .str "Server error"),
         ("status", .str "error"), ("allowed_strategies", .list [])], st⟩

/-- The write of resolveUserSyncConflict on an existing user: the update
throws for a resolved object lacking name, email or role, landing in the
catch branch. -/
def userResolveWrite (uid : String) (strategyV : Option JVal)
    (resolved : Obj) (now : Int) (st : Store) : HandlerOut :=
  match updateUserDoc uid resolved now st with
  | some st' => userResolvedOut uid strategyV resolved st'
  | none => userErrorOut st

/-- resolveUserSyncConflict of userSyncController.js.  When the server
document exists, no strategy-name validation is performed: any unknown
name reaches resolveUserConflict and falls into its merge default.  The
uniqueness re-check runs only for update_data.  An absent clientData
makes the source throw on a property read except where noted, landing in
the catch branch (500). -/
def resolveUserSyncConflict (uidV strategyV : Option JVal)
    (clientData : Option Obj) (now : Int) (st : Store) : HandlerOut :=
  if !truthyO uidV then
    ⟨400, [("success", .bool false), ("message", .str "User ID is required"),
           ("status", .str "error"), ("allowed_strategies", .list [])], st⟩
  else
    match getKey uidV with
    | none => userErrorOut st
    | some uid =>
      match findDoc st uid with
      | none =>
        if sEq strategyV "server_wins" || sEq strategyV "update_data" then
          ⟨400, [("success", .bool false),
                 ("message", .str ("Cannot use " ++ jsStr strategyV ++ " strategy for new user - no server data exists")),
                 ("status", .str "error"),
                 ("allowed_strategies", .list ["client_wins"])], st⟩
        else
          match clientData with
          | none => userErrorOut st
          | some c =>
            match checkUniqueFieldExists "email" (c "email") (some uid) st with
            | some (_, edata) =>
              ⟨409, [("success", .bool false),
                     ("message", .str "Cannot resolve conflict: Email already exists for another user"),
                     ("status", .str "error"), ("conflict_field", .str "email"),
                     ("conflict_type", .str "unique_constraint"),
                     ("latest_data", .obj edata),
                     ("allowed_strategies", .list ["client_wins"])], st⟩
            | none =>
              match checkUniqueFieldExists "phone_number" (c "phone_number") (some uid) st with
              | some (_, pdata) =>
                ⟨409, [("success", .bool false),
                       ("message", .str "Cannot resolve conflict: Phone number already exists for another user"),
                       ("status", .str "error"),
                       ("conflict_field", .str "phone_number"),
                       ("conflict_type", .str "unique_constraint"),
                       ("latest_data", .obj pdata),
                       ("allowed_strategies", .list ["client_wins"])], st⟩
              | none =>
                match createUserDoc uid c now st with
                | some st' =>
                  ⟨200, [("success", .bool true),
                         ("message", .str ("Conflict resolved using " ++ jsStr strategyV ++ " strategy (new user created)")),
                         ("status", .str "resolved"), ("user_id", .str uid),
                         ("resolvedData", .obj c), ("isNewUser", .bool true),
                         ("resolution_strategy", rvalOf strategyV),
                         ("allowed_strategies", .list ["client_wins"]),
                         ("client_id", .str uid), ("server_id", .str uid)], st'⟩
                | none => userErrorOut st
      | some server =>
        if sEq strategyV "update_data" then
          match clientData with
          | none => userErrorOut st
          | some c =>
            match
              (if c "email" ≠ server "email" then
                checkUniqueFieldExists "email" (c "email") (some uid) st
              else none) with
            | some (_, edata) =>
              ⟨409, [("success", .bool false),
                     ("message", .str "Cannot resolve conflict: Email already exists for another user"),
                     ("status", .str "error"), ("conflict_field", .str "email"),
                     ("conflict_type", .str "unique_constraint"),
                     ("latest_data", .obj edata),
                     ("allowed_strategies", .list userAllowed)], st⟩
            | none =>
              match
                (if truthyO (c "phone_number") ∧ c "phone_number" ≠ server "phone_number" then
                  checkUniqueFieldExists "phone_number" (c "phone_number") (some uid) st
                else none) with
              | some (_, pdata) =>
                ⟨409, [("success", .bool false),
                       ("message", .str "Cannot resolve conflict: Phone number already exists for another user"),
                       ("status", .str "error"),
                       ("conflict_field", .str "phone_number"),
                       ("conflict_type", .str "unique_constraint"),
                       ("latest_data", .obj pdata),
                       ("allowed_strategies", .list userAllowed)], st⟩
              | none =>
                userResolveWrite uid strategyV (resolveUserConflict c server strategyV now) now st
        else
          match clientData with
          | none =>
            if sEq strategyV "client_wins" then
              userResolveWrite uid strategyV emptyObj now st
            else if sEq strategyV "server_wins" then
              userResolveWrite uid strategyV server now st
            else userErrorOut st
          | some c =>
            userResolveWrite uid strategyV (resolveUserConflict c server strategyV now) now st

/-- The allowed strategies of the assignment resolve handler once the
server document exists. -/
def assignmentAllowed : List String :=
  ["client_wins", "server_wins", "merge", "update_data"]

/-- resolveTaskAssignmentSyncConflict of taskAssignmentSyncController.js.
Unlike the user handler, this one rejects a strategy name outside the
allowed list with 400 before computing or writing anything. -/
def resolveTaskAssignmentSyncConflict (aidV strategyV : Option JVal)
    (clientData : Option Obj) (st : Store) : HandlerOut :=
  if !truthyO aidV then
    ⟨400, [("success", .bool false),
           ("message", .str "Assignment ID is required"),
           ("status", .str "error"), ("allowed_strategies", .list [])], st⟩
  else
    match getKey aidV with
    | none =>
      ⟨500, [("success", .bool false), ("message", .str "Server error"),
             ("status", .str "error"), ("allowed_strategies", .list [])], st⟩
    | some aid =>
      match findDoc st aid with
      | none =>
        if sEq strategyV "server_wins" || sEq strategyV "update_data" then
          ⟨400, [("success", .bool false),
                 ("message", .str ("Cannot use " ++ jsStr strategyV ++ " strategy for new assignment - no server data exists")),
                 ("status", .str "error"),
                 ("allowed_strategies", .list ["client_wins"])], st⟩
        else
          match createTaskAssignmentDoc aid
              (match clientData with | some c => c | none => emptyObj) st with
          | some st' =>
            ⟨200, [("success", .bool true),
                   ("message", .str ("Conflict resolved using " ++ jsStr strategyV ++ " strategy (new assignment created)")),
                   ("status", .str "resolved"), ("assignment_id", .str aid),
                   ("isNewAssignment", .bool true),
                   ("resolution_strategy", rvalOf strategyV),
                   ("allowed_strategies", .list ["client_wins"]),
                   ("client_id", .str aid), ("server_id", .str aid)], st'⟩
          | none =>
            ⟨500, [("success", .bool false), ("message", .str "Server error"),
                   ("status", .str "error"), ("allowed_strategies", .list [])], st⟩
      | some server =>
        match clientData with
        | none =>
          ⟨400, [("success", .bool false),
                 ("message", .str "Client data is required"),
                 ("status", .str "error"),
                 ("allowed_strategies", .list assignmentAllowed)], st⟩
        | some c =>
          if !stratIn strategyV assignmentAllowed then
            ⟨400, [("success", .bool false),
                   ("message", .str ("Strategy \"" ++ jsStr strategyV ++ "\" is not allowed for this conflict.")),
                   ("status", .str "error"),
                   ("allowed_strategies", .list assignmentAllowed)], st⟩
          else
            match updateTaskAssignmentDoc aid
                (resolveTaskAssignmentConflict c server strategyV) st with
            | some st' =>
              ⟨200, [("success", .bool true),
                     ("message", .str ("Conflict resolved using " ++ jsStr strategyV ++ " strategy (existing assignment updated)")),
                     ("status", .str "resolved"), ("assignment_id", .str aid),
                     ("resolvedData", .obj (resolveTaskAssignmentConflict c server strategyV)),
                     ("isNewAssignment", .bool false),
                     ("resolution_strategy", rvalOf strategyV),
                     ("allowed_strategies", .list assignmentAllowed),
                     ("client_id", .str aid), ("server_id", .str aid)], st'⟩
            | none =>
              ⟨500, [("success", .bool false), ("message", .str "Server error"),
                     ("status", .str "error"),
                     ("allowed_strategies", .list [])], st⟩

/-- An identity-provider account: AuthStore record for one uid. -/
structure AuthRec where
  email : String
  password : String
  displayName : Option JVal
  claimsRole : Option JVal

/-- The AuthStore: association list of uid and account. -/
abbrev Auth : Type := List (String × AuthRec)

/-- admin.auth().getUser(uid): none models auth/user-not-found. -/
def authFind (a : Auth) (uid : String) : Option AuthRec :=
  (a.find? (fun p => p.fst = uid)).map Prod.snd

/-- admin.auth().getUserByEmail(email). -/
def authFindByEmail (a : Auth) (e : String) : Option (String × AuthRec) :=
  a.find? (fun p => p.snd.email = e)

/-- admin.auth().updateUser(uid, password) on the password field. -/
def authSetPassword (a : Auth) (uid p : String) : Auth :=
  a.map (fun q =>
    if q.fst = uid then
      (q.fst, AuthRec.mk q.snd.email p q.snd.displayName q.snd.claimsRole)
    else q)

/-- admin.auth().setCustomUserClaims(uid, role). -/
def authSetClaims (a : Auth) (uid : String) (role : Option JVal) : Auth :=
  a.map (fun q =>
    if q.fst = uid then
      (q.fst, AuthRec.mk q.snd.email q.snd.password q.snd.displayName role)
    else q)

/-- admin.auth().createUser: fails (none) when the email already exists;
the fresh uid the provider would mint is passed in. -/
def authCreateUser (a : Auth) (freshUid e p : String)
    (displayName : Option JVal) : Option Auth :=
  if (authFindByEmail a e).isSome then none
  else some (a ++ [(freshUid, AuthRec.mk e p displayName none)])

/-- Result of the reset-password handler: HTTP status and the three
stores it can touch. -/
structure ResetOut where
  status : Nat
  users : Store
  auth : Auth
  otps : Store

/-- The migrated profile written during uid repair:
the stored user data with updated_at stamped by the server. -/
def reKeyProfile (userDoc : Obj) (now : Int) : Obj := fun k =>
  if k = "updated_at" then some (.n now) else userDoc k

/-- Steps 4 and 5 of resetPassword once the repaired uid is known: update
the auth password, stamp the profile, delete the OTP row.  A missing
target would make either update throw (500). -/
def resetFinish (norm p actualUid : String) (users1 : Store) (auth1 : Auth)
    (otps : Store) (now : Int) : ResetOut :=
  if (authFind auth1 actualUid).isSome then
    match updateAt users1 actualUid [("updated_at", .n now)] with
    | some users2 =>
      ⟨200, users2, authSetPassword auth1 actualUid p, deleteDoc otps norm⟩
    | none => ⟨500, users1, authSetPassword auth1 actualUid p, otps⟩
  else ⟨500, users1, auth1, otps⟩

/-- resetPassword of authController.js (the variant with uid repair).
Inputs are the request strings (none models an absent body field), the
three stores, the uid the provider would mint on createUser, and the
server clock.  The email is normalized by trim and lowercase; validation
rejects missing fields, a short password and a confirmation mismatch.
The profile is located by email; when its uid is unknown to the provider
the handler re-keys the profile to the uid found by email, or to a newly
created account, then updates the password, stamps the profile and
deletes the OTP row. -/
def resetPassword (emailI passwordI confirmI : Option String)
    (users : Store) (auth : Auth) (otps : Store) (freshUid : String)
    (now : Int) : ResetOut :=
  let norm := match emailI with
    | some e => jsToLower (jsTrim e)
    | none => ""
  let p := passwordI.getD ""
  let cp := confirmI.getD ""
  if norm = "" ∨ p = "" ∨ cp = "" then ⟨400, users, auth, otps⟩
  else if p.length < 6 then ⟨400, users, auth, otps⟩
  else if p ≠ cp then ⟨400, users, auth, otps⟩
  else
    match whereEq users "email" (.s norm) with
    | [] => ⟨404, users, auth, otps⟩
    | (uid, userDoc) :: _ =>
      match authFind auth uid with
      | some _ => resetFinish norm p uid users auth otps now
      | none =>
        match authFindByEmail auth norm with
        | some (a1, _) =>
          resetFinish norm p a1
            (setDoc (deleteDoc users uid) a1 (reKeyProfile userDoc now))
            auth otps now
        | none =>
          match authCreateUser auth freshUid norm p (userDoc "name") with
          | some auth2 =>
            resetFinish norm p freshUid
              (setDoc (deleteDoc users uid) freshUid (reKeyProfile userDoc now))
              (if truthyO (userDoc "role") then
                authSetClaims auth2 freshUid (userDoc "role")
              else auth2)
              otps now
          | none => ⟨500, users, auth, otps⟩

/-- Node crypto.randomInt(lo, hi): a uniform integer at least lo and
strictly below hi, driven here by the randomness source r. -/
def cryptoRandomInt (lo hi r : Nat) : Nat := lo + r % (hi - lo)

/-- The OTP generator of forgotPassword: crypto.randomInt(100000, 999999). -/
def otpOf (r : Nat) : Nat := cryptoRandomInt 100000 999999 r

/-- Result of the forgot-password handler: HTTP status and OTP store. -/
structure ForgotOut where
  status : Nat
  otps : Store

/-- forgotPassword of authController.js (the normalizing variant): after
validation and the profile lookup, one OTP row keyed by the normalized
email is written with a ten-minute expiry, and the mail transport is
invoked (external, not modelled; its failure would return 500 with the
row already written). -/
def forgotPassword (emailI : Option String) (users : Store) (otps : Store)
    (r : Nat) (now : Int) : ForgotOut :=
  let norm := match emailI with
    | some e => jsToLower (jsTrim e)
    | none => ""
  if norm = "" ∨ !isValidEmailStr norm then ⟨400, otps⟩
  else
    match whereEq users "email" (.s norm) with
    | [] => ⟨404, otps⟩
    | _ :: _ =>
      ⟨200, setDoc otps norm (objOf
        [("email", .s norm), ("otp", .n (otpOf r)),
         ("expiresAt", .n (now + 600000))])⟩

/-- A document field read through the store, for compact statements. -/
def docField (st : Store) (k f : String) : Option JVal :=
  (findDoc st k).bind (fun o => o f)

/-- The text-append rule exactly as the specification words it (claim
C7): one side empty or absent returns the other, identical texts return
that text, containment returns the containing side, otherwise the server
text, the separator and the client text are concatenated.  This is the
specification-side definition for the refinement comparison with
mergeTextFields. -/
def specTextMerge (clientText serverText : Option String) : Option String :=
  match clientText, serverText with
  | none, _ => serverText
  | _, none => clientText
  | some c, some s =>
    if c = "" then some s
    else if s = "" then some c
    else if c = s then some c
    else if jsIncludes c s then some c
    else if jsIncludes s c then some s
    else some (s ++ syncMergeSep ++ c)

/-- The update_data strategy exactly as the specification words it (claim
C4): the client's fields overlay the server's, the identity fields keep
the server's values, updated_at is stamped now.  Specification-side
definition for the refinement comparison with the source reducers. -/
def specUpdateDataOverlay (identity : List String) (c s : Obj)
    (now : Int) : Obj := fun k =>
  if identity.contains k then s k
  else if k = "updated_at" then some (.n now)
  else pick c s k

/-! Concrete fixtures used by the witnesses and counterexamples. -/

/-- Supply client record with quantity 3 for the resolve endpoint. -/
def exSupplyClient : Obj :=
  objOf [("supply_id", .s "s1"), ("user_id", .s "u1"),
         ("item_name", .s "mask"), ("quantity", .n 3), ("updated_at", .n 1)]

/-- Supply server record with quantity 5. -/
def exSupplyServer : Obj :=
  objOf [("supply_id", .s "s1"), ("user_id", .s "u1"),
         ("item_name", .s "mask"), ("quantity", .n 5),
         ("expiry_date", .s "2030-01-01"), ("location_id", .s "l1"),
         ("updated_at", .n 2)]

/-- Supplies collection holding the server record. -/
def exSupplyStore : Store := [("s1", exSupplyServer)]

/-- Task client that is newer but carries an earlier status. -/
def exTaskClientNewer : Obj :=
  objOf [("status", .s "todo"), ("updated_at", .n 2)]

/-- Task server that is older but carries a later status. -/
def exTaskServerOlder : Obj :=
  objOf [("status", .s "completed"), ("updated_at", .n 1)]

/-- Task client that is stale, for the witness. -/
def exTaskClientStale : Obj :=
  objOf [("status", .s "in_progress"), ("updated_at", .n 1)]

/-- Task server that is newer, for the witness. -/
def exTaskServerNewer : Obj :=
  objOf [("status", .s "completed"), ("updated_at", .n 2)]

/-- User profile stored under the stale uid d1. -/
def exResetProfile : Obj :=
  objOf [("email", .s "a@x.io"), ("name", .s "Ana"), ("role", .s "admin")]

/-- Users collection for the reset scenario. -/
def exResetUsers : Store := [("d1", exResetProfile)]

/-- AuthStore holding the same email under the different uid a1. -/
def exResetAuth : Auth := [("a1", AuthRec.mk "a@x.io" "oldpass" none none)]

/-- Client record for the update_data comparison (no image_url). -/
def exC4Client : Obj :=
  objOf [("user_id", .s "u1"), ("name", .s "Ana")]

/-- Server record for the update_data comparison (has image_url). -/
def exC4Server : Obj :=
  objOf [("email", .s "b@x.io"), ("image_url", .s "pic")]

/-- Stale supply client for the stale-conflict counterexample. -/
def exC5Client : Obj :=
  objOf [("supply_id", .s "s1"), ("user_id", .s "u1"),
         ("item_name", .s "mask"), ("quantity", .n 3), ("updated_at", .n 1)]

/-- User client for the unknown-strategy counterexample; newer than the
server copy. -/
def exC6Client : Obj :=
  objOf [("name", .s "Ana"), ("email", .s "a@x.io"), ("role", .s "admin"),
         ("updated_at", .n 3)]

/-- User server record for the unknown-strategy counterexample. -/
def exC6Server : Obj :=
  objOf [("name", .s "Bob"), ("email", .s "b@x.io"),
         ("role", .s "volunteer"), ("updated_at", .n 2)]

/-- Users collection for the unknown-strategy counterexample. -/
def exC6Store : Store := [("u1", exC6Server)]

/-- Assignment client with notes alpha, stale against the server. -/
def exC7Client : Obj :=
  objOf [("notes", .s "alpha"), ("updated_at", .n 1)]

/-- Assignment server with notes beta. -/
def exC7Server : Obj :=
  objOf [("notes", .s "beta"), ("updated_at", .n 2)]

/-- Users collection for the forgot-password witness. -/
def exC9Users : Store := [("u1", objOf [("email", .s "ana@x.io")])]

/-- Stored user document for the updateUserDoc witness. -/
def exC10Doc : Obj :=
  objOf [("user_id", .s "u1"), ("created_at", .n 0), ("name", .s "Old"),
         ("email", .s "o@x.io"), ("role", .s "admin"),
         ("phone_number", .s "1234567890")]

/-- Users collection for the updateUserDoc witness. -/
def exC10Store : Store := [("u1", exC10Doc)]

/-- Update payload omitting phone_number and image_url. -/
def exC10Data : Obj :=
  objOf [("name", .s "New"), ("email", .s "n@x.io"), ("role", .s "admin"),
         ("updated_at", .n 9)]

/-- The store resulting from the updateUserDoc witness call. -/
def exC10Result : Store :=
  [("u1", patchObj exC10Doc
    [("name", .s "New"), ("email", .s "n@x.io"), ("role", .s "admin"),
     ("phone_number", JVal.null), ("image_url", JVal.null),
     ("updated_at", .n 9)])]

/-- Assignment server record for the strategy-rejection witness. -/
def exC6AServer : Obj :=
  objOf [("task_id", .s "t1"), ("user_id", .s "u1"), ("assigned_at", .n 1),
         ("status", .s "assigned")]

/-- Assignments collection for the strategy-rejection witness. -/
def exC6AStore : Store := [("a1", exC6AServer)]

/-! Supporting lemmas about the store operations. -/

theorem findDoc_setDoc_self (st : Store) (k : String) (o : Obj) :
    findDoc (setDoc st k o) k = some o := by
  induction st with
  | nil => simp [findDoc, setDoc, List.find?]
  | cons hd tl ih =>
    obtain ⟨k0, o0⟩ := hd
    by_cases h : k0 = k
    · subst h
      simp [setDoc, findDoc, List.find?]
    · simp only [setDoc, if_neg h]
      simpa [findDoc, List.find?, h] using ih

theorem findDoc_setDoc_ne (st : Store) (k k2 : String) (o : Obj)
    (h : k2 ≠ k) : findDoc (setDoc st k o) k2 = findDoc st k2 := by
  induction st with
  | nil => simp [findDoc, setDoc, List.find?, Ne.symm h]
  | cons hd tl ih =>
    obtain ⟨k0, o0⟩ := hd
    by_cases hk : k0 = k
    · subst hk
      simp [setDoc, findDoc, List.find?, Ne.symm h]
    · simp only [setDoc, if_neg hk]
      by_cases hk2 : k0 = k2
      · subst hk2
        simp [findDoc, List.find?]
      · simpa [findDoc, List.find?, hk2] using ih

theorem findDoc_deleteDoc_self (st : Store) (k : String) :
    findDoc (deleteDoc st k) k = none := by
  induction st with
  | nil => simp [findDoc, deleteDoc, List.find?]
  | cons hd tl ih =>
    obtain ⟨k0, o0⟩ := hd
    by_cases h : k0 = k
    · subst h
      simp only [deleteDoc] at ih
      simp [deleteDoc, findDoc, List.find?, ih]
    · simp only [deleteDoc] at ih
      simp [deleteDoc, findDoc, List.find?, h, ih]

theorem findDoc_deleteDoc_ne (st : Store) (k k2 : String) (h : k2 ≠ k) :
    findDoc (deleteDoc st k) k2 = findDoc st k2 := by
  induction st with
  | nil => simp [findDoc, deleteDoc, List.find?]
  | cons hd tl ih =>
    obtain ⟨k0, o0⟩ := hd
    by_cases hk : k0 = k
    · subst hk
      simpa [deleteDoc, findDoc, List.find?, Ne.symm h] using ih
    · by_cases hk2 : k0 = k2
      · subst hk2
        simp [deleteDoc, findDoc, List.find?, hk]
      · simpa [deleteDoc, findDoc, List.find?, hk, hk2] using ih

theorem updateAt_of_found (st : Store) (k : String) (o : Obj)
    (fields : List (String × JVal)) (h : findDoc st k = some o) :
    updateAt st k fields = some (st.map (fun p =>
      if p.fst = k then (p.fst, patchObj p.snd fields) else p)) := by
  simp [updateAt, h]

theorem findDoc_mapUpdate_self (st : Store) (k : String) (o : Obj)
    (fields : List (String × JVal)) (h : findDoc st k = some o) :
    findDoc (st.map (fun p =>
      if p.fst = k then (p.fst, patchObj p.snd fields) else p)) k =
      some (patchObj o fields) := by
  induction st with
  | nil => simp [findDoc, List.find?] at h
  | cons hd tl ih =>
    obtain ⟨k0, o0⟩ := hd
    by_cases hk : k0 = k
    · subst hk
      simp [findDoc, List.find?] at h
      subst h
      simp [findDoc, List.find?]
    · have hstep : findDoc ((k0, o0) :: tl) k = findDoc tl k := by
        simp [findDoc, List.find?, hk]
      rw [hstep] at h
      have hstep2 : findDoc ((k0, o0) :: tl.map (fun p =>
          if p.fst = k then (p.fst, patchObj p.snd fields) else p)) k =
          findDoc (tl.map (fun p =>
          if p.fst = k then (p.fst, patchObj p.snd fields) else p)) k := by
        simp [findDoc, List.find?, hk]
      simp only [List.map, if_neg hk]
      rw [hstep2]
      exact ih h

theorem findDoc_mapUpdate_ne (st : Store) (k k2 : String)
    (fields : List (String × JVal)) (h : k2 ≠ k) :
    findDoc (st.map (fun p =>
      if p.fst = k then (p.fst, patchObj p.snd fields) else p)) k2 =
      findDoc st k2 := by
  induction st with
  | nil => simp [findDoc, List.find?]
  | cons hd tl ih =>
    obtain ⟨k0, o0⟩ := hd
    by_cases hk : k0 = k
    · subst hk
      simpa [findDoc, List.find?, Ne.symm h] using ih
    · by_cases hk2 : k0 = k2
      · subst hk2
        simp [findDoc, List.find?, if_neg hk]
      · simpa [findDoc, List.find?, hk, hk2] using ih

/-- The loop merge always keeps a value present on the server side. -/
theorem loopMergeKey_isSome (c s : Obj) (newer : Bool) (crit : List String)
    (k : String) (hs : (s k).isSome) :
    (loopMergeKey c s newer crit k).isSome := by
  unfold loopMergeKey
  by_cases h1 : crit.contains k
  · rw [if_pos h1]
    by_cases h2 : newer = true ∧ (c k).isSome ∧ c k ≠ s k
    · rw [if_pos h2]
      exact h2.2.1
    · rw [if_neg h2]
      exact hs
  · rw [if_neg h1]
    by_cases h3 : (c k).isSome ∧ (if newer = true then c k ≠ s k else False)
    · rw [if_pos h3]
      exact h3.1
    · rw [if_neg h3]
      exact hs

/-! Supporting lemmas about the status lattices and the text merge. -/

theorem taskRank_mem {a : String} (h : (taskStatusRank a).isSome) :
    a = "todo" ∨ a = "in_progress" ∨ a = "review" ∨ a = "completed" ∨
    a = "cancelled" := by
  unfold taskStatusRank at h
  split_ifs at h with h1 h2 h3 h4 h5
  · exact Or.inl h1
  · exact Or.inr (Or.inl h2)
  · exact Or.inr (Or.inr (Or.inl h3))
  · exact Or.inr (Or.inr (Or.inr (Or.inl h4)))
  · exact Or.inr (Or.inr (Or.inr (Or.inr h5)))
  · simp at h

theorem registrationRank_mem {a : String}
    (h : (registrationStatusRank a).isSome) :
    a = "pending" ∨ a = "in_progress" ∨ a = "completed" ∨
    a = "transferred" ∨ a = "discharged" := by
  unfold registrationStatusRank at h
  split_ifs at h with h1 h2 h3 h4 h5
  · exact Or.inl h1
  · exact Or.inr (Or.inl h2)
  · exact Or.inr (Or.inr (Or.inl h3))
  · exact Or.inr (Or.inr (Or.inr (Or.inl h4)))
  · exact Or.inr (Or.inr (Or.inr (Or.inr h5)))
  · simp at h

theorem assignmentRank_mem {a : String}
    (h : (assignmentStatusRank a).isSome) :
    a = "assigned" ∨ a = "accepted" ∨ a = "in_progress" ∨
    a = "completed" ∨ a = "rejected" := by
  unfold assignmentStatusRank at h
  split_ifs at h with h1 h2 h3 h4 h5
  · exact Or.inl h1
  · exact Or.inr (Or.inl h2)
  · exact Or.inr (Or.inr (Or.inl h3))
  · exact Or.inr (Or.inr (Or.inr (Or.inl h4)))
  · exact Or.inr (Or.inr (Or.inr (Or.inr h5)))
  · simp at h

/-- The shared join never regresses when both inputs carry a rank: the
result is one of the inputs and its rank dominates both. -/
theorem mostAdvanced_ge (rank : String → Option Nat) (a b : String)
    (x y : Nat) (ha : rank a = some x) (hb : rank b = some y)
    (hna : a ≠ "") (hnb : b ≠ "") :
    ∃ r z, mostAdvanced rank (some (.s a)) (some (.s b)) = some (.s r) ∧
      rank r = some z ∧ x ≤ z ∧ y ≤ z := by
  have hta : truthyO (some (JVal.s a)) = true := by
    simp [truthyO, JVal.truthy, hna]
  have htb : truthyO (some (JVal.s b)) = true := by
    simp [truthyO, JVal.truthy, hnb]
  unfold mostAdvanced
  rw [hta, htb]
  simp only [Bool.not_true, Bool.false_eq_true, if_false]
  simp only [rankOf, ha, hb, jsGtRank]
  by_cases hxy : x > y
  · rw [if_pos (by simpa using hxy)]
    exact ⟨a, x, rfl, ha, le_refl x, le_of_lt hxy⟩
  · rw [if_neg (by simpa using hxy)]
    exact ⟨b, y, rfl, hb, le_of_not_lt hxy, le_refl y⟩

theorem listContainsSeq_nil_pat (l : List Char) :
    listContainsSeq l [] = true := by
  cases l <;> simp [listContainsSeq, listStartsWith]

theorem jsIncludes_empty_pat (h : String) : jsIncludes h "" = true := by
  simpa [jsIncludes] using listContainsSeq_nil_pat h.toList

theorem toList_eq_nil {s : String} : s.toList = [] ↔ s = "" := by
  constructor
  · intro h
    cases s with
    | mk data =>
      have hd : data = [] := h
      subst hd
      decide
  · intro h
    subst h
    decide

theorem jsIncludes_empty_hay {s : String} (h : s ≠ "") :
    jsIncludes "" s = false := by
  have hne : s.toList ≠ [] := fun hc => h (toList_eq_nil.mp hc)
  unfold jsIncludes
  have hn : ("" : String).toList = [] := by decide
  rw [hn]
  cases hs : s.toList with
  | nil => exact absurd hs hne
  | cons a l => simp [listContainsSeq, List.isEmpty]

theorem mergeTextFields_eq_spec (ct sv : Option String) :
    mergeTextFields ct sv = specTextMerge ct sv := by
  match ct, sv with
  | none, none => rfl
  | none, some s => rfl
  | some c, none => rfl
  | some c, some s =>
    by_cases hc : c = ""
    · subst hc
      by_cases hs : s = ""
      · subst hs
        rfl
      · have h1 : ("" : String) ≠ s := fun h => hs h.symm
        have h2 : jsIncludes "" s = false := jsIncludes_empty_hay hs
        simp [mergeTextFields, specTextMerge, h1, h2, jsIncludes_empty_pat]
    · by_cases hs : s = ""
      · subst hs
        have h1 : c ≠ ("" : String) := hc
        have h2 : jsIncludes c "" = true := jsIncludes_empty_pat c
        simp [mergeTextFields, specTextMerge, h1, h2, hc]
      · by_cases hcs : c = s
        · subst hcs
          simp [mergeTextFields, specTextMerge, hc]
        · simp [mergeTextFields, specTextMerge, hc, hs, hcs]

/-! Supporting lemmas about the auth store. -/

theorem authFind_isSome_of_byEmail {a : Auth} {e u : String} {r : AuthRec}
    (h : authFindByEmail a e = some (u, r)) : (authFind a u).isSome := by
  have hmem : (u, r) ∈ a := List.mem_of_find?_eq_some h
  unfold authFind
  have hfs : (List.find? (fun p => decide (p.fst = u)) a).isSome :=
    List.find?_isSome.mpr ⟨(u, r), hmem, by simp⟩
  obtain ⟨y, hy⟩ := Option.isSome_iff_exists.mp hfs
  simp [hy]

theorem authFind_setPassword_self {a : Auth} {u : String} {r : AuthRec}
    (p : String) (h : authFind a u = some r) :
    authFind (authSetPassword a u p) u =
      some (AuthRec.mk r.email p r.displayName r.claimsRole) := by
  induction a with
  | nil => simp [authFind, List.find?] at h
  | cons hd tl ih =>
    obtain ⟨k0, r0⟩ := hd
    by_cases hk : k0 = u
    · subst hk
      simp [authFind, List.find?] at h
      subst h
      simp [authSetPassword, authFind, List.find?]
    · have hstep : authFind ((k0, r0) :: tl) u = authFind tl u := by
        simp [authFind, List.find?, hk]
      rw [hstep] at h
      have := ih h
      simpa [authSetPassword, authFind, List.find?, hk] using this

/-! Claim C8: commutativity of the status join. -/

/-- C8 counterexample: the Task status join is not commutative on the
spec-allowed Task status value pending (which is also the default status
written by taskModel.js), because pending has no entry in the Task rank
table: joining pending with todo yields todo one way and pending the
other way. -/
theorem c8_counterexample :
    calculateMostAdvancedStatus (some (.s "pending")) (some (.s "todo")) =
      some (.s "todo") ∧
    calculateMostAdvancedStatus (some (.s "todo")) (some (.s "pending")) =
      some (.s "pending") ∧
    ("todo" : String) ≠ "pending" :=
  ⟨rfl, rfl, by decide⟩

/-- C8 (amended): the status join is commutative for every pair of status
values that carry a rank in the entity's table, both for Task (whose
table lists todo, in_progress, review, completed, cancelled — not
pending) and for Registration. -/
theorem c8_statusJoin_comm :
    (∀ a b : String, (taskStatusRank a).isSome → (taskStatusRank b).isSome →
      calculateMostAdvancedStatus (some (.s a)) (some (.s b)) =
        calculateMostAdvancedStatus (some (.s b)) (some (.s a))) ∧
    (∀ a b : String, (registrationStatusRank a).isSome →
      (registrationStatusRank b).isSome →
      calculateMostAdvancedRegistrationStatus (some (.s a)) (some (.s b)) =
        calculateMostAdvancedRegistrationStatus (some (.s b)) (some (.s a))) := by
  constructor
  · intro a b ha hb
    rcases taskRank_mem ha with h | h | h | h | h <;> subst h <;>
      (rcases taskRank_mem hb with h2 | h2 | h2 | h2 | h2 <;> subst h2 <;> decide)
  · intro a b ha hb
    rcases registrationRank_mem ha with h | h | h | h | h <;> subst h <;>
      (rcases registrationRank_mem hb with h2 | h2 | h2 | h2 | h2 <;>
        subst h2 <;> decide)

/-- Witness for C8: the join of todo and completed is the same in both
argument orders. -/
theorem c8_witness :
    (taskStatusRank "todo").isSome ∧ (taskStatusRank "completed").isSome ∧
    calculateMostAdvancedStatus (some (.s "todo")) (some (.s "completed")) =
      calculateMostAdvancedStatus (some (.s "completed")) (some (.s "todo")) :=
  ⟨by decide, by decide,
    c8_statusJoin_comm.1 "todo" "completed" (by decide) (by decide)⟩

/-! Claim C1: the sum_quantities strategy for Supply. -/

/-- C1 counterexample: resolve-conflict for Supply called with strategy
sum_quantities, client.quantity 3 and server.quantity 5 responds 400 and
leaves the store unchanged: the strategy is rejected, and no record with
quantity 8 is produced. -/
theorem c1_counterexample :
    (resolveSupplySyncConflict (some (.s "s1")) (some (.s "sum_quantities"))
      (some exSupplyClient) 9 exSupplyStore).status = 400 ∧
    (resolveSupplySyncConflict (some (.s "s1")) (some (.s "sum_quantities"))
      (some exSupplyClient) 9 exSupplyStore).store = exSupplyStore ∧
    exSupplyClient "quantity" = some (.n 3) ∧
    docField exSupplyStore "s1" "quantity" = some (.n 5) :=
  ⟨rfl, rfl, rfl, rfl⟩

/-- C1 (amended): for every request, resolve-conflict for Supply called
with strategy sum_quantities responds 400 and does not write to the
store: the accepted strategies are exactly client_wins, server_wins and
merge, and the resolver has no quantity-summing case. -/
theorem c1_supply_rejects_sum_quantities (sidV : Option JVal)
    (clientData : Option Obj) (now : Int) (st : Store) :
    (resolveSupplySyncConflict sidV (some (.s "sum_quantities")) clientData
      now st).status = 400 ∧
    (resolveSupplySyncConflict sidV (some (.s "sum_quantities")) clientData
      now st).store = st := by
  have hs : stratIn (some (JVal.s "sum_quantities"))
      ["client_wins", "server_wins", "merge"] = false := by decide
  cases htr : truthyO sidV <;> simp [resolveSupplySyncConflict, htr, hs]

/-! Claim C9: the OTP generator range. -/

/-- C9 counterexample: 999999 is never generated: the upper bound of
crypto.randomInt is exclusive, so the OTP generator cannot return it. -/
theorem c9_counterexample : ¬ ∃ r : Nat, otpOf r = 999999 := by
  rintro ⟨r, hr⟩
  unfold otpOf cryptoRandomInt at hr
  have h2 : r % (999999 - 100000) < 899999 := by
    have h3 : (999999 - 100000 : Nat) = 899999 := by norm_num
    rw [h3]
    exact Nat.mod_lt _ (by norm_num)
  omega

/-- C9 (amended): every generated OTP lies in the closed interval
[100000, 999998]; every integer of that interval is attainable; and a
successful forgot-password request writes exactly the generated OTP with
a ten-minute expiry under the normalized email. -/
theorem c9_otp_range :
    (∀ r : Nat, 100000 ≤ otpOf r ∧ otpOf r ≤ 999998) ∧
    (∀ n : Nat, 100000 ≤ n → n ≤ 999998 → ∃ r : Nat, otpOf r = n) ∧
    (∀ (e : String) (users otps : Store) (r : Nat) (now : Int),
      jsToLower (jsTrim e) ≠ "" →
      isValidEmailStr (jsToLower (jsTrim e)) = true →
      (whereEq users "email" (.s (jsToLower (jsTrim e)))).isEmpty = false →
      (forgotPassword (some e) users otps r now).status = 200 ∧
      findDoc (forgotPassword (some e) users otps r now).otps
          (jsToLower (jsTrim e)) =
        some (objOf [("email", .s (jsToLower (jsTrim e))),
                     ("otp", .n (otpOf r)),
                     ("expiresAt", .n (now + 600000))])) := by
  refine ⟨?_, ?_, ?_⟩
  · intro r
    unfold otpOf cryptoRandomInt
    have h2 : r % (999999 - 100000) < 899999 := by
      have h3 : (999999 - 100000 : Nat) = 899999 := by norm_num
      rw [h3]
      exact Nat.mod_lt _ (by norm_num)
    omega
  · intro n h1 h2
    refine ⟨n - 100000, ?_⟩
    unfold otpOf cryptoRandomInt
    have h3 : (999999 - 100000 : Nat) = 899999 := by norm_num
    rw [h3]
    have h4 : (n - 100000) % 899999 = n - 100000 := Nat.mod_eq_of_lt (by omega)
    omega
  · intro e users otps r now hne hval hq
    unfold forgotPassword
    simp only []
    rw [if_neg (by simp [hne, hval])]
    rcases hqe : whereEq users "email" (JVal.s (jsToLower (jsTrim e))) with _ | ⟨p, rest⟩
    · rw [hqe] at hq
      simp [List.isEmpty] at hq
    · exact ⟨rfl, findDoc_setDoc_self otps (jsToLower (jsTrim e)) _⟩

/-- Witness for C9: a complete forgot-password round on a one-user store
writes the OTP of randomness source 123456 under the normalized email. -/
theorem c9_witness :
    jsToLower (jsTrim "Ana@x.io ") ≠ "" ∧
    isValidEmailStr (jsToLower (jsTrim "Ana@x.io ")) = true ∧
    (whereEq exC9Users "email" (.s (jsToLower (jsTrim "Ana@x.io ")))).isEmpty
      = false ∧
    (forgotPassword (some "Ana@x.io ") exC9Users [] 123456 0).status = 200 :=
  ⟨by decide, by decide, by decide,
    (c9_otp_range.2.2 "Ana@x.io " exC9Users [] 123456 0 (by decide) (by decide)
      (by decide)).1⟩

/-! Claim C4: the update_data strategy and the identity fields. -/

/-- C4 counterexample: update_data does not overlay the client's fields
on the server's: the server-only non-identity field image_url is dropped
by the source reducer, while the spec overlay keeps it. -/
theorem c4_counterexample :
    resolveUserConflict exC4Client exC4Server (some (.s "update_data")) 7
      "image_url" = none ∧
    specUpdateDataOverlay ["email", "phone_number"] exC4Client exC4Server 7
      "image_url" = some (.s "pic") :=
  ⟨rfl, rfl⟩

/-- C4 (amended): update_data returns the client's own fields — fields
present only on the server are dropped, not overlaid — with every
identity-defining field taken from the server (User: email and
phone_number; Registration: person_name, age and gender; Location: name)
and updated_at set to now. -/
theorem c4_update_data_fields :
    (∀ (c s : Obj) (now : Int),
      resolveUserConflict c s (some (.s "update_data")) now "email" = s "email" ∧
      resolveUserConflict c s (some (.s "update_data")) now "phone_number" =
        s "phone_number" ∧
      resolveUserConflict c s (some (.s "update_data")) now "updated_at" =
        some (.n now) ∧
      ∀ k, k ≠ "email" → k ≠ "phone_number" → k ≠ "updated_at" →
        resolveUserConflict c s (some (.s "update_data")) now k = c k) ∧
    (∀ (c s : Obj) (now : Int),
      resolveRegistrationConflict c s (some (.s "update_data")) now
        "person_name" = s "person_name" ∧
      resolveRegistrationConflict c s (some (.s "update_data")) now "age" =
        s "age" ∧
      resolveRegistrationConflict c s (some (.s "update_data")) now "gender" =
        s "gender" ∧
      resolveRegistrationConflict c s (some (.s "update_data")) now
        "updated_at" = some (.n now) ∧
      ∀ k, k ≠ "person_name" → k ≠ "age" → k ≠ "gender" → k ≠ "updated_at" →
        resolveRegistrationConflict c s (some (.s "update_data")) now k = c k) ∧
    (∀ (c s : Obj) (now : Int),
      resolveLocationConflict c s (some (.s "update_data")) now "name" =
        s "name" ∧
      resolveLocationConflict c s (some (.s "update_data")) now "updated_at" =
        some (.n now) ∧
      ∀ k, k ≠ "name" → k ≠ "updated_at" →
        resolveLocationConflict c s (some (.s "update_data")) now k = c k) := by
  refine ⟨?_, ?_, ?_⟩
  · intro c s now
    refine ⟨rfl, rfl, rfl, ?_⟩
    intro k h1 h2 h3
    show userUpdateData c s now k = c k
    simp [userUpdateData, h1, h2, h3]
  · intro c s now
    refine ⟨rfl, rfl, rfl, rfl, ?_⟩
    intro k h1 h2 h3 h4
    show registrationUpdateData c s now k = c k
    simp [registrationUpdateData, h1, h2, h3, h4]
  · intro c s now
    refine ⟨rfl, rfl, ?_⟩
    intro k h1 h2
    show locationUpdateData c s now k = c k
    simp [locationUpdateData, h1, h2]

/-- Witness for C4: update_data keeps the client's name field. -/
theorem c4_witness :
    resolveUserConflict exC4Client exC4Server (some (.s "update_data")) 7
      "name" = exC4Client "name" :=
  (c4_update_data_fields.1 exC4Client exC4Server 7).2.2.2 "name"
    (by decide) (by decide) (by decide)

/-! Claim C7: the text-append merge rule. -/

/-- C7 counterexample: the merge strategy does not apply the text-append
rule to TaskAssignment.notes: with client notes alpha against newer
server notes beta, the merge returns alpha, while the text-append rule
would return beta, the separator and alpha. -/
theorem c7_counterexample :
    (resolveTaskAssignmentConflict exC7Client exC7Server (some (.s "merge")))
      "notes" = some (.s "alpha") ∧
    mergeTextFieldsJ (exC7Client "notes") (exC7Server "notes") =
      some (.s ("beta" ++ syncMergeSep ++ "alpha")) ∧
    ("alpha" : String) ≠ "beta" ++ syncMergeSep ++ "alpha" :=
  ⟨rfl, rfl, by decide⟩

/-- C7 (amended): mergeTextFields implements exactly the spec's
text-append rule, and the merge strategy applies it to
Registration.medical_history and Registration.notes; TaskAssignment.notes
is instead taken from the client when present (and different from the
server's, in the server-newer branch), with no appending. -/
theorem c7_text_merge :
    (∀ ct sv : Option String, mergeTextFields ct sv = specTextMerge ct sv) ∧
    (∀ (c s : Obj) (now : Int),
      (resolveRegistrationConflict c s (some (.s "merge")) now)
          "medical_history" =
        mergeTextFieldsJ (c "medical_history") (s "medical_history") ∧
      (resolveRegistrationConflict c s (some (.s "merge")) now) "notes" =
        mergeTextFieldsJ (c "notes") (s "notes")) ∧
    (∀ c s : Obj, newerThan (mTime c) (mTime s) = false →
      (resolveTaskAssignmentConflict c s (some (.s "merge"))) "notes" =
        (if (c "notes").isSome ∧ c "notes" ≠ s "notes" then c "notes"
         else s "notes")) ∧
    (∀ c s : Obj, newerThan (mTime c) (mTime s) = true →
      (resolveTaskAssignmentConflict c s (some (.s "merge"))) "notes" =
        pick c s "notes") := by
  refine ⟨mergeTextFields_eq_spec, ?_, ?_, ?_⟩
  · intro c s now
    exact ⟨rfl, rfl⟩
  · intro c s h
    have hred : resolveTaskAssignmentConflict c s (some (JVal.s "merge")) =
        assignmentMergeStale c s := by
      show (if newerThan (mTime c) (mTime s) = true then
              assignmentMergeNewer c s
            else assignmentMergeStale c s) = assignmentMergeStale c s
      rw [h]
      simp
    rw [hred]
    rfl
  · intro c s h
    have hred : resolveTaskAssignmentConflict c s (some (JVal.s "merge")) =
        assignmentMergeNewer c s := by
      show (if newerThan (mTime c) (mTime s) = true then
              assignmentMergeNewer c s
            else assignmentMergeStale c s) = assignmentMergeNewer c s
      rw [h]
      simp
    rw [hred]
    rfl

/-- Witness for C7: the stale-branch notes rule evaluated on the alpha
and beta records. -/
theorem c7_witness :
    newerThan (mTime exC7Client) (mTime exC7Server) = false ∧
    (resolveTaskAssignmentConflict exC7Client exC7Server (some (.s "merge")))
      "notes" =
      (if (exC7Client "notes").isSome ∧ exC7Client "notes" ≠ exC7Server "notes"
       then exC7Client "notes" else exC7Server "notes") :=
  ⟨by decide, c7_text_merge.2.2.1 exC7Client exC7Server (by decide)⟩

/-! Claim C2: non-regression of status fields under merge. -/

/-- C2 counterexample: the Task merge regresses the status when the
client is newer: a client carrying todo with a newer updated_at beats a
server carrying completed, and the merged status todo has rank 1 below
the maximum rank 4 of the inputs. -/
theorem c2_counterexample :
    exTaskClientNewer "status" = some (.s "todo") ∧
    exTaskServerOlder "status" = some (.s "completed") ∧
    newerThan (mTime exTaskClientNewer) (mTime exTaskServerOlder) = true ∧
    (resolveTaskConflict exTaskClientNewer exTaskServerOlder
      (some (.s "merge"))) "status" = some (.s "todo") ∧
    taskStatusRank "todo" = some 1 ∧ taskStatusRank "completed" = some 4 :=
  ⟨rfl, rfl, rfl, rfl, rfl, rfl⟩

/-- C2 (amended): the merged status dominates both input ranks for Task
and TaskAssignment whenever the client's updated_at is not strictly newer
than the server's (the branch that applies the lattice join), and for
Registration unconditionally (its join runs in both branches).  When the
client is strictly newer, Task and TaskAssignment adopt the client status
verbatim and may regress. -/
theorem c2_status_non_regression :
    (∀ (c s : Obj) (a b : String) (x y : Nat),
      c "status" = some (.s a) → s "status" = some (.s b) →
      taskStatusRank a = some x → taskStatusRank b = some y →
      newerThan (mTime c) (mTime s) = false →
      ∃ r z, (resolveTaskConflict c s (some (.s "merge"))) "status" =
          some (.s r) ∧ taskStatusRank r = some z ∧ x ≤ z ∧ y ≤ z) ∧
    (∀ (c s : Obj) (a b : String) (x y : Nat),
      c "status" = some (.s a) → s "status" = some (.s b) →
      assignmentStatusRank a = some x → assignmentStatusRank b = some y →
      newerThan (mTime c) (mTime s) = false →
      ∃ r z, (resolveTaskAssignmentConflict c s (some (.s "merge")))
          "status" = some (.s r) ∧ assignmentStatusRank r = some z ∧
          x ≤ z ∧ y ≤ z) ∧
    (∀ (c s : Obj) (now : Int) (a b : String) (x y : Nat),
      c "status" = some (.s a) → s "status" = some (.s b) →
      registrationStatusRank a = some x → registrationStatusRank b = some y →
      ∃ r z, (resolveRegistrationConflict c s (some (.s "merge")) now)
          "status" = some (.s r) ∧ registrationStatusRank r = some z ∧
          x ≤ z ∧ y ≤ z) := by
  refine ⟨?_, ?_, ?_⟩
  · intro c s a b x y hc hs hx hy hnew
    have hna : a ≠ "" := by
      intro h
      subst h
      simp [taskStatusRank] at hx
    have hnb : b ≠ "" := by
      intro h
      subst h
      simp [taskStatusRank] at hy
    have hred : resolveTaskConflict c s (some (JVal.s "merge")) =
        taskMergeStale c s := by
      show (if newerThan (mTime c) (mTime s) = true then taskMergeNewer c s
            else taskMergeStale c s) = taskMergeStale c s
      rw [hnew]
      simp
    rw [hred]
    have hkey : taskMergeStale c s "status" =
        calculateMostAdvancedStatus (c "status") (s "status") := rfl
    rw [hkey, hc, hs]
    exact mostAdvanced_ge taskStatusRank a b x y hx hy hna hnb
  · intro c s a b x y hc hs hx hy hnew
    have hna : a ≠ "" := by
      intro h
      subst h
      simp [assignmentStatusRank] at hx
    have hnb : b ≠ "" := by
      intro h
      subst h
      simp [assignmentStatusRank] at hy
    have hred : resolveTaskAssignmentConflict c s (some (JVal.s "merge")) =
        assignmentMergeStale c s := by
      show (if newerThan (mTime c) (mTime s) = true then
              assignmentMergeNewer c s
            else assignmentMergeStale c s) = assignmentMergeStale c s
      rw [hnew]
      simp
    rw [hred]
    have hkey : assignmentMergeStale c s "status" =
        calculateMostAdvancedAssignmentStatus (c "status") (s "status") := rfl
    rw [hkey, hc, hs]
    exact mostAdvanced_ge assignmentStatusRank a b x y hx hy hna hnb
  · intro c s now a b x y hc hs hx hy
    have hna : a ≠ "" := by
      intro h
      subst h
      simp [registrationStatusRank] at hx
    have hnb : b ≠ "" := by
      intro h
      subst h
      simp [registrationStatusRank] at hy
    have hkey : (resolveRegistrationConflict c s (some (JVal.s "merge")) now)
        "status" =
        calculateMostAdvancedRegistrationStatus (c "status") (s "status") :=
      rfl
    rw [hkey, hc, hs]
    exact mostAdvanced_ge registrationStatusRank a b x y hx hy hna hnb

/-- Witness for C2: a stale client at in_progress against a newer server
at completed merges to a status of rank at least 4. -/
theorem c2_witness :
    exTaskClientStale "status" = some (.s "in_progress") ∧
    exTaskServerNewer "status" = some (.s "completed") ∧
    newerThan (mTime exTaskClientStale) (mTime exTaskServerNewer) = false ∧
    ∃ r z, (resolveTaskConflict exTaskClientStale exTaskServerNewer
        (some (.s "merge"))) "status" = some (.s r) ∧
      taskStatusRank r = some z ∧ 2 ≤ z ∧ 4 ≤ z :=
  ⟨rfl, rfl, rfl,
    c2_status_non_regression.1 exTaskClientStale exTaskServerNewer
      "in_progress" "completed" 2 4 rfl rfl rfl rfl rfl⟩

/-! Claim C10: the updateUserDoc frame. -/

/-- C10 (confirmed): updateUserDoc writes exactly the fields name, email,
role, phone_number, image_url and updated_at into the stored document:
user_id, created_at and every other field keep their stored values, a
payload omitting phone_number or image_url overwrites the stored value
with null, and every other document of the collection is untouched. -/
theorem c10_update_user_doc_frame (uid : String) (d : Obj) (now : Int)
    (st st2 : Store) (doc : Obj)
    (hdoc : findDoc st uid = some doc)
    (hupd : updateUserDoc uid d now st = some st2) :
    ∃ doc2, findDoc st2 uid = some doc2 ∧
      doc2 "user_id" = doc "user_id" ∧
      doc2 "created_at" = doc "created_at" ∧
      (∀ k, k ≠ "name" → k ≠ "email" → k ≠ "role" → k ≠ "phone_number" →
        k ≠ "image_url" → k ≠ "updated_at" → doc2 k = doc k) ∧
      (d "phone_number" = none → doc2 "phone_number" = some JVal.null) ∧
      (d "image_url" = none → doc2 "image_url" = some JVal.null) ∧
      doc2 "name" = d "name" ∧ doc2 "email" = d "email" ∧
      doc2 "role" = d "role" ∧
      (∀ k2, k2 ≠ uid → findDoc st2 k2 = findDoc st k2) := by
  rcases hn : d "name" with _ | nm
  · simp [updateUserDoc, hn] at hupd
  rcases he : d "email" with _ | em
  · simp [updateUserDoc, hn, he] at hupd
  rcases hr : d "role" with _ | rl
  · simp [updateUserDoc, hn, he, hr] at hupd
  simp only [updateUserDoc, hn, he, hr] at hupd
  rw [updateAt_of_found st uid doc _ hdoc] at hupd
  have hst2 := Option.some.inj hupd
  subst hst2
  refine ⟨patchObj doc
      [("name", nm), ("email", em), ("role", rl),
       ("phone_number", jsOrNull (d "phone_number")),
       ("image_url", jsOrNull (d "image_url")),
       ("updated_at", jsOr (d "updated_at") (.n now))],
    findDoc_mapUpdate_self st uid doc _ hdoc, rfl, rfl, ?_, ?_, ?_,
    rfl, rfl, rfl, ?_⟩
  · intro k h1 h2 h3 h4 h5 h6
    have e1 : (k == "name") = false := beq_eq_false_iff_ne.mpr h1
    have e2 : (k == "email") = false := beq_eq_false_iff_ne.mpr h2
    have e3 : (k == "role") = false := beq_eq_false_iff_ne.mpr h3
    have e4 : (k == "phone_number") = false := beq_eq_false_iff_ne.mpr h4
    have e5 : (k == "image_url") = false := beq_eq_false_iff_ne.mpr h5
    have e6 : (k == "updated_at") = false := beq_eq_false_iff_ne.mpr h6
    simp [patchObj, List.lookup, e1, e2, e3, e4, e5, e6]
  · intro hp
    show some (jsOrNull (d "phone_number")) = some JVal.null
    rw [hp]
    rfl
  · intro hp
    show some (jsOrNull (d "image_url")) = some JVal.null
    rw [hp]
    rfl
  · intro k2 hk2
    exact findDoc_mapUpdate_ne st uid k2 _ hk2

/-- Witness for C10: updating a stored user with a payload omitting
phone_number nulls the stored phone and keeps user_id and created_at. -/
theorem c10_witness :
    findDoc exC10Store "u1" = some exC10Doc ∧
    updateUserDoc "u1" exC10Data 9 exC10Store = some exC10Result ∧
    ∃ doc2, findDoc exC10Result "u1" = some doc2 ∧
      doc2 "user_id" = exC10Doc "user_id" ∧
      doc2 "created_at" = exC10Doc "created_at" ∧
      (∀ k, k ≠ "name" → k ≠ "email" → k ≠ "role" → k ≠ "phone_number" →
        k ≠ "image_url" → k ≠ "updated_at" → doc2 k = exC10Doc k) ∧
      (exC10Data "phone_number" = none → doc2 "phone_number" = some JVal.null) ∧
      (exC10Data "image_url" = none → doc2 "image_url" = some JVal.null) ∧
      doc2 "name" = exC10Data "name" ∧ doc2 "email" = exC10Data "email" ∧
      doc2 "role" = exC10Data "role" ∧
      (∀ k2, k2 ≠ "u1" → findDoc exC10Result k2 = findDoc exC10Store k2) :=
  ⟨rfl, rfl,
    c10_update_user_doc_frame "u1" exC10Data 9 exC10Store exC10Result
      exC10Doc rfl rfl⟩

/-! Claim C6: rejection of unknown strategy names on resolve-conflict. -/

/-- C6 counterexample: the user resolve endpoint called on an existing
document with the unknown strategy name bogus responds 200 — not 400 —
and writes the merge result to the store (the stored email flips to the
newer client's value). -/
theorem c6_counterexample :
    (resolveUserSyncConflict (some (.s "u1")) (some (.s "bogus"))
      (some exC6Client) 99 exC6Store).status = 200 ∧
    docField (resolveUserSyncConflict (some (.s "u1")) (some (.s "bogus"))
      (some exC6Client) 99 exC6Store).store "u1" "email" =
      some (.s "a@x.io") ∧
    exC6Server "email" = some (.s "b@x.io") :=
  ⟨rfl, rfl, rfl⟩

/-- C6 (amended): with an existing server document, the TaskAssignment
resolve endpoint rejects a strategy name outside client_wins,
server_wins, merge, update_data with 400 and leaves the store unchanged;
the User resolve endpoint performs no such check — an unknown name falls
into the default merge branch of resolveUserConflict, is written through
updateUserDoc, and the endpoint responds 200. -/
theorem c6_unknown_strategy :
    (∀ (uidV strategyV : Option JVal) (uid : String) (c server : Obj)
        (st : Store) (now : Int),
      truthyO uidV = true → getKey uidV = some uid →
      findDoc st uid = some server →
      strategyV ≠ some (.s "client_wins") →
      strategyV ≠ some (.s "server_wins") →
      strategyV ≠ some (.s "merge") →
      strategyV ≠ some (.s "update_data") →
      (server "name").isSome → (server "email").isSome →
      (server "role").isSome →
      ∃ st2, updateUserDoc uid (userMerge c server) now st = some st2 ∧
        resolveUserSyncConflict uidV strategyV (some c) now st =
          userResolvedOut uid strategyV (userMerge c server) st2) ∧
    (∀ (aidV strategyV : Option JVal) (aid : String) (c server : Obj)
        (st : Store),
      truthyO aidV = true → getKey aidV = some aid →
      findDoc st aid = some server →
      stratIn strategyV assignmentAllowed = false →
      resolveTaskAssignmentSyncConflict aidV strategyV (some c) st =
        ⟨400, [("success", .bool false),
               ("message", .str ("Strategy \"" ++ jsStr strategyV ++
                 "\" is not allowed for this conflict.")),
               ("status", .str "error"),
               ("allowed_strategies", .list assignmentAllowed)], st⟩) := by
  constructor
  · intro uidV strategyV uid c server st now htr hkey hfind h1 h2 h3 h4 hsn
      hse hsr
    have hcw : sEq strategyV "client_wins" = false := by simp [sEq, h1]
    have hsw : sEq strategyV "server_wins" = false := by simp [sEq, h2]
    have hmg : sEq strategyV "merge" = false := by simp [sEq, h3]
    have hud : sEq strategyV "update_data" = false := by simp [sEq, h4]
    have hres : resolveUserConflict c server strategyV now =
        userMerge c server := by
      unfold resolveUserConflict
      rw [hcw, hsw, hud]
      simp
    have hmn : (userMerge c server "name").isSome :=
      loopMergeKey_isSome c server (newerThan (mTime c) (mTime server))
        ["email", "role"] "name" hsn
    have hme : (userMerge c server "email").isSome :=
      loopMergeKey_isSome c server (newerThan (mTime c) (mTime server))
        ["email", "role"] "email" hse
    have hmr : (userMerge c server "role").isSome :=
      loopMergeKey_isSome c server (newerThan (mTime c) (mTime server))
        ["email", "role"] "role" hsr
    obtain ⟨nm, hnm⟩ := Option.isSome_iff_exists.mp hmn
    obtain ⟨em, hem⟩ := Option.isSome_iff_exists.mp hme
    obtain ⟨rl, hrl⟩ := Option.isSome_iff_exists.mp hmr
    have hupd : updateUserDoc uid (userMerge c server) now st =
        some (st.map (fun p =>
          if p.fst = uid then
            (p.fst, patchObj p.snd
              [("name", nm), ("email", em), ("role", rl),
               ("phone_number", jsOrNull (userMerge c server "phone_number")),
               ("image_url", jsOrNull (userMerge c server "image_url")),
               ("updated_at",
                jsOr (userMerge c server "updated_at") (.n now))])
          else p)) := by
      simp only [updateUserDoc, hnm, hem, hrl]
      exact updateAt_of_found st uid server _ hfind
    refine ⟨_, hupd, ?_⟩
    unfold resolveUserSyncConflict
    rw [htr]
    simp only [Bool.not_true, Bool.false_eq_true, if_false]
    rw [hkey]
    simp only []
    rw [hfind]
    simp only [hud, Bool.false_eq_true, if_false]
    show userResolveWrite uid strategyV
        (resolveUserConflict c server strategyV now) now st = _
    rw [hres]
    unfold userResolveWrite
    rw [hupd]
  · intro aidV strategyV aid c server st htr hkey hfind hstrat
    unfold resolveTaskAssignmentSyncConflict
    rw [htr]
    simp only [Bool.not_true, Bool.false_eq_true, if_false]
    rw [hkey]
    simp only []
    rw [hfind]
    simp only [hstrat, Bool.not_false, if_true]

/-- Witness for C6: the assignment endpoint rejects the strategy bogus on
an existing assignment with 400 and an unchanged store. -/
theorem c6_witness :
    truthyO (some (JVal.s "a1")) = true ∧
    getKey (some (JVal.s "a1")) = some "a1" ∧
    findDoc exC6AStore "a1" = some exC6AServer ∧
    stratIn (some (JVal.s "bogus")) assignmentAllowed = false ∧
    resolveTaskAssignmentSyncConflict (some (.s "a1")) (some (.s "bogus"))
        (some emptyObj) exC6AStore =
      ⟨400, [("success", .bool false),
             ("message", .str ("Strategy \"" ++ jsStr (some (JVal.s "bogus")) ++
               "\" is not allowed for this conflict.")),
             ("status", .str "error"),
             ("allowed_strategies", .list assignmentAllowed)], exC6AStore⟩ :=
  ⟨rfl, rfl, rfl, by decide,
    c6_unknown_strategy.2 (some (.s "a1")) (some (.s "bogus")) "a1" emptyObj
      exC6AServer exC6AStore rfl rfl rfl (by decide)⟩

/-! Claim C5: the stale-conflict response shape. -/

/-- C5 counterexample: the Supply sync handler reports a stale update
with conflict_field supply_id — not updated_at — and without
allowed_strategies, client_id or server_id. -/
theorem c5_counterexample :
    findDoc exSupplyStore "s1" = some exSupplyServer ∧
    staleLt (exC5Client "updated_at") (exSupplyServer "updated_at") = true ∧
    (syncSupplyFromClient exC5Client 9 exSupplyStore).status = 409 ∧
    lookupStr (syncSupplyFromClient exC5Client 9 exSupplyStore).body
      "conflict_field" = some "supply_id" ∧
    (some "supply_id" : Option String) ≠ some "updated_at" ∧
    lookupList (syncSupplyFromClient exC5Client 9 exSupplyStore).body
      "allowed_strategies" = none ∧
    lookupStr (syncSupplyFromClient exC5Client 9 exSupplyStore).body
      "client_id" = none ∧
    (syncSupplyFromClient exC5Client 9 exSupplyStore).store = exSupplyStore :=
  ⟨rfl, rfl, rfl, rfl, by decide, rfl, rfl, rfl⟩

/-- C5 (amended): on a stale update every sync handler responds 409 with
latest_data = the server document and an unchanged store, but the body
differs per entity: User reports conflict_field updated_at with the four
allowed strategies and client_id = server_id = the primary key, while
Supply and Task report the primary-key field name (supply_id, task_id)
and omit allowed_strategies and the ids. -/
theorem c5_stale_conflict :
    (∀ (s : Obj) (now : Int) (st : Store) (pk : String) (server : Obj),
      truthyO (s "supply_id") = true → truthyO (s "user_id") = true →
      truthyO (s "item_name") = true → truthyO (s "updated_at") = true →
      getKey (s "supply_id") = some pk → findDoc st pk = some server →
      staleLt (s "updated_at") (server "updated_at") = true →
      syncSupplyFromClient s now st =
        ⟨409, [("error", .str "Conflict: Stale update"),
               ("conflict_field", .str "supply_id"),
               ("latest_data", .obj server)], st⟩) ∧
    (∀ (u : Obj) (now : Int) (st : Store) (pk : String) (server : Obj),
      truthyO (u "user_id") = true → truthyO (u "name") = true →
      truthyO (u "email") = true → truthyO (u "role") = true →
      truthyO (u "updated_at") = true →
      isValidEmailV (u "email") = true →
      (truthyO (u "phone_number") && !(isValidPhoneNumberV
        (u "phone_number"))) = false →
      getKey (u "user_id") = some pk → findDoc st pk = some server →
      staleLt (u "updated_at") (server "updated_at") = true →
      syncUserFromClient u now st =
        ⟨409, [("error", .str "Conflict: Stale update"),
               ("conflict_field", .str "updated_at"),
               ("latest_data", .obj server),
               ("allowed_strategies",
                .list ["client_wins", "server_wins", "merge", "update_data"]),
               ("client_id", .str pk), ("server_id", .str pk)], st⟩) ∧
    (∀ (t : Obj) (now : Int) (st : Store) (pk : String) (server : Obj),
      truthyO (t "task_id") = true → truthyO (t "title") = true →
      truthyO (t "created_by") = true → truthyO (t "updated_at") = true →
      t "location_id" = none →
      getKey (t "task_id") = some pk → findDoc st pk = some server →
      staleLt (t "updated_at") (server "updated_at") = true →
      syncTaskFromClient t now st =
        ⟨409, [("error", .str "Conflict: Stale update"),
               ("conflict_field", .str "task_id"),
               ("latest_data", .obj server)], st⟩) := by
  refine ⟨?_, ?_, ?_⟩
  · intro s now st pk server h1 h2 h3 h4 hkey hfind hstale
    unfold syncSupplyFromClient
    rw [h1, h2, h3, h4]
    simp only [Bool.and_self, Bool.not_true, Bool.false_eq_true, if_false]
    rw [hkey]
    simp only []
    rw [hfind]
    simp only [hstale, if_true]
  · intro u now st pk server h1 h2 h3 h4 h5 hem hph hkey hfind hstale
    unfold syncUserFromClient
    rw [h1, h2, h3, h4, h5]
    simp only [Bool.and_self, Bool.not_true, Bool.false_eq_true, if_false]
    rw [hem]
    simp only [Bool.not_true, Bool.false_eq_true, if_false]
    rw [hph]
    simp only [Bool.false_eq_true, if_false]
    rw [hkey]
    simp only []
    rw [hfind]
    simp only [hstale, if_true]
  · intro t now st pk server h1 h2 h3 h4 hloc hkey hfind hstale
    unfold syncTaskFromClient
    rw [h1, h2, h3, h4]
    simp only [Bool.and_self, Bool.not_true, Bool.false_eq_true, if_false]
    rw [if_neg (by simp [hloc, truthyO])]
    unfold syncTaskMain
    rw [hkey]
    simp only []
    rw [hfind]
    simp only [hstale, if_true]

/-- Witness for C5: the Supply stale response on the concrete stale
client against the stored record. -/
theorem c5_witness :
    truthyO (exC5Client "supply_id") = true ∧
    getKey (exC5Client "supply_id") = some "s1" ∧
    findDoc exSupplyStore "s1" = some exSupplyServer ∧
    staleLt (exC5Client "updated_at") (exSupplyServer "updated_at") = true ∧
    syncSupplyFromClient exC5Client 9 exSupplyStore =
      ⟨409, [("error", .str "Conflict: Stale update"),
             ("conflict_field", .str "supply_id"),
             ("latest_data", .obj exSupplyServer)], exSupplyStore⟩ :=
  ⟨rfl, rfl, rfl, rfl,
    c5_stale_conflict.1 exC5Client 9 exSupplyStore "s1" exSupplyServer
      rfl rfl rfl rfl rfl rfl rfl⟩

/-! Claim C3: the reset-password uid reconciliation. -/

/-- C3 (confirmed): when the profile is stored under uid d1 while the
identity provider holds the same email under a different uid a1, a valid
reset-password request succeeds; afterwards the users collection holds
the profile under a1 with a fresh updated_at, d1 is absent, and the new
password is applied to the auth account a1. -/
theorem c3_reset_uid_reconciliation
    (e p freshUid : String) (users : Store) (auth : Auth) (otps : Store)
    (now : Int) (d1 a1 : String) (profile : Obj) (arec : AuthRec)
    (rest : Store)
    (hnorm : jsToLower (jsTrim e) = e) (hene : e ≠ "")
    (hplen : 6 ≤ p.length)
    (hq : whereEq users "email" (.s e) = (d1, profile) :: rest)
    (hauth : authFind auth d1 = none)
    (hbyemail : authFindByEmail auth e = some (a1, arec))
    (hne : d1 ≠ a1) :
    (resetPassword (some e) (some p) (some p) users auth otps freshUid
      now).status = 200 ∧
    findDoc (resetPassword (some e) (some p) (some p) users auth otps
        freshUid now).users a1 =
      some (patchObj (reKeyProfile profile now) [("updated_at", .n now)]) ∧
    findDoc (resetPassword (some e) (some p) (some p) users auth otps
        freshUid now).users d1 = none ∧
    (authFind (resetPassword (some e) (some p) (some p) users auth otps
        freshUid now).auth a1).map AuthRec.password = some p := by
  have hpne : p ≠ "" := by
    intro h
    subst h
    simp at hplen
  have hfa : (authFind auth a1).isSome := authFind_isSome_of_byEmail hbyemail
  obtain ⟨arec2, harec2⟩ := Option.isSome_iff_exists.mp hfa
  have hset : findDoc (setDoc (deleteDoc users d1) a1 (reKeyProfile profile
      now)) a1 = some (reKeyProfile profile now) :=
    findDoc_setDoc_self (deleteDoc users d1) a1 (reKeyProfile profile now)
  have hout : resetPassword (some e) (some p) (some p) users auth otps
      freshUid now =
      ⟨200,
        (setDoc (deleteDoc users d1) a1 (reKeyProfile profile now)).map
          (fun q => if q.fst = a1 then
            (q.fst, patchObj q.snd [("updated_at", .n now)]) else q),
        authSetPassword auth a1 p, deleteDoc otps e⟩ := by
    unfold resetPassword
    simp only [hnorm]
    rw [if_neg (by simp [hene, hpne])]
    rw [if_neg (by simp only [Option.getD_some]; omega)]
    rw [if_neg (by simp)]
    rw [hq]
    simp only []
    rw [hauth]
    simp only []
    rw [hbyemail]
    simp only []
    unfold resetFinish
    rw [show (authFind auth a1).isSome = true from hfa]
    simp only [if_true]
    rw [updateAt_of_found _ a1 (reKeyProfile profile now) _ hset]
    rfl
  rw [hout]
  refine ⟨rfl, ?_, ?_, ?_⟩
  · exact findDoc_mapUpdate_self _ a1 (reKeyProfile profile now) _ hset
  · have h1 : findDoc ((setDoc (deleteDoc users d1) a1 (reKeyProfile profile
        now)).map (fun q => if q.fst = a1 then
          (q.fst, patchObj q.snd [("updated_at", .n now)]) else q)) d1 =
        findDoc (setDoc (deleteDoc users d1) a1 (reKeyProfile profile now))
          d1 :=
      findDoc_mapUpdate_ne _ a1 d1 _ hne
    rw [h1]
    rw [findDoc_setDoc_ne (deleteDoc users d1) a1 d1 _ hne]
    exact findDoc_deleteDoc_self users d1
  · rw [authFind_setPassword_self p harec2]
    rfl

/-- Witness for C3: the two-store scenario with uid d1 in the document
store and a1 in the auth store, repaired by one reset request. -/
theorem c3_witness :
    jsToLower (jsTrim "a@x.io") = "a@x.io" ∧
    whereEq exResetUsers "email" (.s "a@x.io") =
      ("d1", exResetProfile) :: [] ∧
    authFind exResetAuth "d1" = none ∧
    authFindByEmail exResetAuth "a@x.io" =
      some ("a1", AuthRec.mk "a@x.io" "oldpass" none none) ∧
    (resetPassword (some "a@x.io") (some "secret1") (some "secret1")
        exResetUsers exResetAuth [] "f1" 7).status = 200 ∧
    findDoc (resetPassword (some "a@x.io") (some "secret1") (some "secret1")
        exResetUsers exResetAuth [] "f1" 7).users "d1" = none :=
  ⟨by decide, rfl, rfl, rfl,
    (c3_reset_uid_reconciliation "a@x.io" "secret1" "f1" exResetUsers
      exResetAuth [] 7 "d1" "a1" exResetProfile
      (AuthRec.mk "a@x.io" "oldpass" none none) [] (by decide) (by decide)
      (by decide) rfl rfl rfl (by decide)).1,
    (c3_reset_uid_reconciliation "a@x.io" "secret1" "f1" exResetUsers
      exResetAuth [] 7 "d1" "a1" exResetProfile
      (AuthRec.mk "a@x.io" "oldpass" none none) [] (by decide) (by decide)
      (by decide) rfl rfl rfl (by decide)).2.2.1⟩

end EmberCore
